import Mathlib

/-!
Verification of the vector-database desired-state generators of this
repository against their specification.

The repository contains two redundant variants of the generator:

- `src/functions/vectordb/function/fn.py` (class `VectorDBFunctionRunner`),
  which links resources by explicit name references (`vpcIdRef`,
  `subnetIdRefs`, ...).  Modelled below by `ConfigA`, the `create_*`
  builders and `runFunctionA`.
- `src/function-vectordb/function/fn.py` (class `FunctionRunner`), which
  links resources by label selectors and literal placeholder values.
  Modelled below by `runFunctionB`.

Resource manifests are nested loosely-typed dictionaries in the source;
they are embedded as the JSON-like type `Value`.  Python numbers (int and
float) are embedded as rationals, which represent every numeric literal of
the source exactly.  Python dicts keep insertion order, so objects and
resource maps are association lists.  Exceptions raised by the Python code
(`KeyError`, `ValueError`) are embedded as `Except PyErr`.
-/

/-- Exceptions that the embedded Python code can raise. -/
inductive PyErr where
  | keyError
  | valueError
deriving DecidableEq, Repr

/-- A JSON-like value: the shape of a Python dict built from literals,
as used for resource manifests in both generator variants. -/
inductive Value where
  | vstr : String → Value
  | vnum : ℚ → Value
  | vbool : Bool → Value
  | varr : List Value → Value
  | vobj : List (String × Value) → Value
deriving Repr

/-- Field lookup in an object value, mirroring Python dict access. -/
def Value.get (v : Value) (k : String) : Option Value :=
  match v with
  | Value.vobj fs => fs.lookup k
  | _ => none

/-- Lookup along a path of keys through nested objects. -/
def Value.getPath (v : Value) : List String → Option Value
  | [] => some v
  | k :: ks =>
    match v.get k with
    | some w => w.getPath ks
    | none => none

/-- Payload keys of `src/functions/vectordb/function/fn.py` that hold a
cross-resource reference of the form `{"name": ...}` (or a list of such
objects).  `providerConfigRef` and `writeConnectionSecretToRef` are not
resource references: the former names a ProviderConfig outside the graph
and the latter names an output secret sink. -/
def refKeys : List String :=
  ["vpcIdRef", "subnetIdRef", "subnetIdRefs", "routeTableIdRef", "gatewayIdRef",
   "securityGroupIdRef", "vpcSecurityGroupIdRefs", "dbSubnetGroupNameRef",
   "clusterIdentifierRef", "monitoringRoleArnRef", "masterPasswordSecretRef"]

/-- The referenced name carried by a single reference object `{"name": n}`. -/
def refTargetName : Value → List String
  | Value.vobj fs =>
    match fs.lookup "name" with
    | some (Value.vstr s) => [s]
    | _ => []
  | _ => []

/-- The referenced names carried by a reference value: either one
reference object or a list of reference objects. -/
def extractRefNames : Value → List String
  | Value.varr vs => vs.flatMap refTargetName
  | v => refTargetName v

mutual

/-- All resource-reference target names occurring anywhere inside a value. -/
def refNames : Value → List String
  | Value.vstr _ => []
  | Value.vnum _ => []
  | Value.vbool _ => []
  | Value.varr vs => refNamesList vs
  | Value.vobj fs => refNamesFields fs

/-- Reference target names of every element of a list. -/
def refNamesList : List Value → List String
  | [] => []
  | v :: vs => refNames v ++ refNamesList vs

/-- Reference target names of every field of an object: a field whose key
is a reference key contributes its target names, every other field is
scanned recursively. -/
def refNamesFields : List (String × Value) → List String
  | [] => []
  | (k, v) :: fs =>
    (if refKeys.contains k then extractRefNames v else refNames v) ++ refNamesFields fs

end

mutual

/-- Whether a key occurs anywhere inside a value (at any nesting depth). -/
def hasKey : Value → String → Bool
  | Value.vstr _, _ => false
  | Value.vnum _, _ => false
  | Value.vbool _, _ => false
  | Value.varr vs, key => hasKeyList vs key
  | Value.vobj fs, key => hasKeyFields fs key

/-- Whether a key occurs inside any element of a list. -/
def hasKeyList : List Value → String → Bool
  | [], _ => false
  | v :: vs, key => hasKey v key || hasKeyList vs key

/-- Whether a key occurs among the fields of an object or nested below. -/
def hasKeyFields : List (String × Value) → String → Bool
  | [], _ => false
  | (k, v) :: fs, key => (k == key) || hasKey v key || hasKeyFields fs key

end

/-- A descriptor graph: the `desired.resources` map of one invocation, as
an association list from composition-internal resource name to manifest,
in insertion order. -/
abbrev Graph := List (String × Value)

/-- The `metadata.name` of a manifest, when it is a string. -/
def metaName (v : Value) : Option String :=
  match v.getPath ["metadata", "name"] with
  | some (Value.vstr s) => some s
  | _ => none

/-- All reference target names occurring in any manifest of a graph. -/
def graphRefNames (g : Graph) : List String :=
  g.flatMap fun p => refNames p.2

/-- All `metadata.name` values of the manifests of a graph. -/
def graphMetaNames (g : Graph) : List String :=
  g.filterMap fun p => metaName p.2

/-! ## CIDR model

Models the parts of the Python `ipaddress` standard library used by
`_calculate_subnet_cidrs` in `src/functions/vectordb/function/fn.py`:
`IPv4Network(s, strict=False)` parsing and the `subnets(new_prefix=...)`
enumeration. -/

/-- An IPv4 network: network address (as a 32-bit number) and the number
of leading bits fixed by the mask. -/
structure IPv4Net where
  addr : Nat
  plen : Nat
deriving DecidableEq, Repr

/-- Number of addresses in the network. -/
def IPv4Net.blockSize (n : IPv4Net) : Nat := 2 ^ (32 - n.plen)

/-- Membership of an address in a network block. -/
def memIp (ip : Nat) (n : IPv4Net) : Prop := n.addr ≤ ip ∧ ip < n.addr + n.blockSize

/-- One block is contained in the other. -/
def subnetOf (a b : IPv4Net) : Prop := ∀ ip, memIp ip a → memIp ip b

/-- Two blocks share at least one address. -/
def overlaps (a b : IPv4Net) : Prop := ∃ ip, memIp ip a ∧ memIp ip b

/-- Split a character list at every occurrence of a separator character;
the accumulator holds the current piece reversed. -/
def splitSep (sep : Char) : List Char → List Char → List (List Char)
  | [], acc => [acc.reverse]
  | c :: rest, acc =>
    if c = sep then acc.reverse :: splitSep sep rest []
    else splitSep sep rest (c :: acc)

/-- Decimal value of a digit list. -/
def digitsVal (cs : List Char) : Nat :=
  cs.foldl (fun n c => n * 10 + (c.toNat - 48)) 0

/-- Parse one dotted-quad octet, modelled from `ipaddress`: digits only,
at most three of them, no leading zero, value at most 255. -/
def parseOctet (cs : List Char) : Option Nat :=
  if cs ≠ [] ∧ cs.length ≤ 3 ∧ cs.all Char.isDigit ∧
      (cs.length = 1 ∨ cs.head? ≠ some '0') then
    if digitsVal cs ≤ 255 then some (digitsVal cs) else none
  else none

/-- Parse a nonempty digit string (used for the mask length). -/
def parseDigits (cs : List Char) : Option Nat :=
  if cs ≠ [] ∧ cs.all Char.isDigit then some (digitsVal cs) else none

/-- Parse a dotted-quad IPv4 address into its 32-bit value. -/
def parseIPv4Addr (cs : List Char) : Option Nat :=
  match splitSep '.' cs [] with
  | [a, b, c, d] => do
    let va ← parseOctet a
    let vb ← parseOctet b
    let vc ← parseOctet c
    let vd ← parseOctet d
    pure (va * 16777216 + vb * 65536 + vc * 256 + vd)
  | _ => none

/-- Mask length encoded by a dotted-decimal mask value, as
`_prefix_from_ip_int` recovers it: a netmask is ones followed by zeroes
(value `2^32 - 2^(32-p)`), a hostmask is zeroes followed by ones (value
`2^(32-p) - 1`); netmasks are checked first. -/
def prefixFromMask (m : Nat) : Option Nat :=
  match (List.range 33).find? (fun p => m == 2 ^ 32 - 2 ^ (32 - p)) with
  | some p => some p
  | none => (List.range 33).find? (fun p => m == 2 ^ (32 - p) - 1)

/-- Parse the part after the slash as `_make_netmask` does: first as a
decimal mask length (digits only, at most 32), otherwise as a
dotted-decimal netmask or hostmask. -/
def parseMaskPart (cs : List Char) : Option Nat :=
  match parseDigits cs with
  | some n => if n ≤ 32 then some n else none
  | none => (parseIPv4Addr cs).bind prefixFromMask

/-- Parse a CIDR string as `IPv4Network(s, strict=False)` does: an
optional mask part after a slash (mask length, netmask or hostmask,
defaulting to the full 32 bits), with host bits masked away. -/
def parseCidr (s : String) : Option IPv4Net :=
  match splitSep '/' s.data [] with
  | [a] => (parseIPv4Addr a).map fun ip => ⟨ip, 32⟩
  | [a, p] => do
    let ip ← parseIPv4Addr a
    let pl ← parseMaskPart p
    pure ⟨ip / 2 ^ (32 - pl) * 2 ^ (32 - pl), pl⟩
  | _ => none

/-- The j-th sub-block of a network at 8 additional mask bits. -/
def subnetAt (net : IPv4Net) (j : Nat) : IPv4Net :=
  ⟨net.addr + j * 2 ^ (32 - (net.plen + 8)), net.plen + 8⟩

/-- Core loop of `_calculate_subnet_cidrs` (fn.py lines 180-194), after
parsing.  For each zone index i the Python code enumerates the sub-blocks
of the parent at `new_prefix = prefixlen + 8` and keeps the one at index
`i + 6`; if fewer than `i + 7` sub-blocks exist nothing is appended for
that zone.  The `subnets` generator special-cases a full-length parent:
a /32 network yields only itself, before any `new_prefix` validation, so
the loop appends nothing (index 0 never equals i + 6) and no error is
raised.  For shorter parents the generator raises `ValueError` when the
new prefix exceeds 32 bits; being a generator, that only fires when at
least one zone is requested.  Otherwise there are exactly `2 ^ 8`
sub-blocks. -/
def allocateSubnets (net : IPv4Net) (az_count : Nat) : Except PyErr (List IPv4Net) :=
  if az_count = 0 then .ok []
  else if net.plen = 32 then .ok []
  else if 32 < net.plen + 8 then .error .valueError
  else .ok ((List.range az_count).filterMap fun i =>
    if i + 6 < 2 ^ 8 then some (subnetAt net (i + 6)) else none)

/-- Render a network back to its CIDR string, as `str(subnet_network)`. -/
def netToString (n : IPv4Net) : String :=
  toString (n.addr / 16777216 % 256) ++ "." ++ toString (n.addr / 65536 % 256) ++ "." ++
    toString (n.addr / 256 % 256) ++ "." ++ toString (n.addr % 256) ++ "/" ++ toString n.plen

/-- `_calculate_subnet_cidrs` of `src/functions/vectordb/function/fn.py`:
parse the VPC CIDR (a parse failure is the ValueError raised by
`ipaddress`), allocate the database-tier sub-blocks, render them. -/
def calculate_subnet_cidrs (vpc_cidr : String) (az_count : Nat) :
    Except PyErr (List String) :=
  match parseCidr vpc_cidr with
  | none => .error .valueError
  | some net => (allocateSubnets net az_count).map (List.map netToString)

theorem subnetAt_disjoint (net : IPv4Net) (a b : Nat) (h : a < b) :
    ¬ overlaps (subnetAt net a) (subnetAt net b) := by
  rintro ⟨ip, ⟨ha1, ha2⟩, ⟨hb1, hb2⟩⟩
  simp only [subnetAt, IPv4Net.blockSize] at *
  have hstep : a * 2 ^ (32 - (net.plen + 8)) + 2 ^ (32 - (net.plen + 8)) ≤
      b * 2 ^ (32 - (net.plen + 8)) := by
    have hmul : (a + 1) * 2 ^ (32 - (net.plen + 8)) ≤ b * 2 ^ (32 - (net.plen + 8)) :=
      Nat.mul_le_mul_right _ h
    rwa [Nat.add_mul, one_mul] at hmul
  omega

theorem subnetAt_subset (net : IPv4Net) (j : Nat) (hj : j < 2 ^ 8)
    (h8 : net.plen + 8 ≤ 32) : subnetOf (subnetAt net j) net := by
  intro ip hip
  simp only [memIp, subnetAt, IPv4Net.blockSize] at hip ⊢
  obtain ⟨h1, h2⟩ := hip
  constructor
  · omega
  · have hpow : 2 ^ (32 - net.plen) = 256 * 2 ^ (32 - (net.plen + 8)) := by
      rw [show 32 - net.plen = 8 + (32 - (net.plen + 8)) by omega, pow_add]
      norm_num
    have hmul : j * 2 ^ (32 - (net.plen + 8)) + 2 ^ (32 - (net.plen + 8)) ≤
        256 * 2 ^ (32 - (net.plen + 8)) := by
      have h1 : (j + 1) * 2 ^ (32 - (net.plen + 8)) ≤ 256 * 2 ^ (32 - (net.plen + 8)) :=
        Nat.mul_le_mul_right _ (by norm_num at hj ⊢; omega)
      rwa [Nat.add_mul, one_mul] at h1
    omega

/-- C2: whenever the subnet allocator of `_calculate_subnet_cidrs`
succeeds on a parent network with a zone count of at least 2, the returned
address blocks are pairwise non-overlapping and each is contained in the
parent network. -/
theorem claim_C2_cidr_nonoverlap (net : IPv4Net) (az_count : Nat) (blocks : List IPv4Net)
    (hok : allocateSubnets net az_count = .ok blocks) (h2 : 2 ≤ az_count) :
    blocks.Pairwise (fun a b => ¬ overlaps a b) ∧ ∀ b ∈ blocks, subnetOf b net := by
  unfold allocateSubnets at hok
  rw [if_neg (by omega : ¬ az_count = 0)] at hok
  by_cases h32 : net.plen = 32
  · rw [if_pos h32] at hok
    obtain rfl := Except.ok.inj hok
    exact ⟨List.Pairwise.nil, by simp⟩
  rw [if_neg h32] at hok
  by_cases h1 : 32 < net.plen + 8
  · rw [if_pos h1] at hok
    cases hok
  · rw [if_neg h1] at hok
    obtain rfl := Except.ok.inj hok
    constructor
    · refine List.Pairwise.filterMap _ ?_ (List.pairwise_lt_range az_count)
      intro a b hab x hx y hy
      rw [Option.mem_def] at hx hy
      split_ifs at hx hy
      obtain rfl := Option.some.inj hx
      obtain rfl := Option.some.inj hy
      exact subnetAt_disjoint net _ _ (by omega)
    · intro b hb
      rw [List.mem_filterMap] at hb
      obtain ⟨i, hi, hib⟩ := hb
      split_ifs at hib with h6
      obtain rfl := Option.some.inj hib
      exact subnetAt_subset net _ h6 (by omega)

/-- Concrete blocks allocated for the default VPC CIDR 10.10.0.0/16
(address 168427520) with two zones: offsets 6 and 7 at mask length 24. -/
def blocks2 : List IPv4Net := [⟨168429056, 24⟩, ⟨168429312, 24⟩]

/-- Witness for C2 at the default parent 10.10.0.0/16 and two zones. -/
theorem claim_C2_witness :
    blocks2.Pairwise (fun a b => ¬ overlaps a b) ∧
      ∀ b ∈ blocks2, subnetOf b ⟨168427520, 16⟩ :=
  claim_C2_cidr_nonoverlap ⟨168427520, 16⟩ 2 blocks2 rfl (by norm_num)

theorem alloc_filterMap_eq_map (g : Nat → IPv4Net) (az : Nat) :
    (List.range az).filterMap (fun i => if i + 6 < 2 ^ 8 then some (g i) else none) =
      (List.range (min az 250)).map g := by
  induction az with
  | zero => simp
  | succ n ih =>
    rw [List.range_succ, List.filterMap_append, ih]
    by_cases h : n + 6 < 2 ^ 8
    · have hn : n < 250 := by norm_num at h; omega
      have hmin : min (n + 1) 250 = min n 250 + 1 := by omega
      rw [hmin, List.range_succ, List.map_append]
      simp only [List.filterMap_cons, List.filterMap_nil, if_pos h]
      simp [min_eq_left (by omega : n ≤ 250)]
    · have hmin : min (n + 1) 250 = min n 250 := by norm_num at h; omega
      rw [hmin]
      simp only [List.filterMap_cons, List.filterMap_nil, if_neg h, List.append_nil]

/-- C3 (amended): whenever the sub-block mask length fits in 32 bits, the
allocator succeeds and returns one block per zone index i with
i + 6 < 2 ^ 8, in ascending address order, each at 8 additional mask bits
and starting at tier offset 6; in particular it returns exactly
`az_count` blocks when the parent can yield `az_count + 6` sub-blocks.
Zone indices past the available sub-blocks are silently skipped — the
code never fails with an AddressSpaceExhausted error. -/
theorem claim_C3_subnet_enumeration (net : IPv4Net) (az_count : Nat)
    (h8 : net.plen + 8 ≤ 32) :
    allocateSubnets net az_count =
        .ok ((List.range (min az_count 250)).map fun i => subnetAt net (i + 6)) ∧
      (az_count + 6 ≤ 2 ^ 8 →
        ((List.range (min az_count 250)).map fun i => subnetAt net (i + 6)).length = az_count) ∧
      ((List.range (min az_count 250)).map fun i => subnetAt net (i + 6)).Pairwise
        (fun a b => a.addr < b.addr) ∧
      ∀ b ∈ (List.range (min az_count 250)).map fun i => subnetAt net (i + 6),
        b.plen = net.plen + 8 := by
  refine ⟨?_, ?_, ?_, ?_⟩
  · unfold allocateSubnets
    by_cases h0 : az_count = 0
    · subst h0
      simp
    · rw [if_neg h0, if_neg (by omega : ¬ net.plen = 32), if_neg (by omega)]
      rw [alloc_filterMap_eq_map]
  · intro hy
    simp only [List.length_map, List.length_range]
    norm_num at hy
    omega
  · rw [List.pairwise_map]
    refine (List.pairwise_lt_range _).imp ?_
    intro a b hab
    simp only [subnetAt]
    have hpos : 0 < 2 ^ (32 - (net.plen + 8)) := Nat.pos_pow_of_pos _ (by norm_num)
    have : (a + 6) * 2 ^ (32 - (net.plen + 8)) < (b + 6) * 2 ^ (32 - (net.plen + 8)) :=
      (Nat.mul_lt_mul_right hpos).mpr (by omega)
    omega
  · intro b hb
    rw [List.mem_map] at hb
    obtain ⟨i, _, rfl⟩ := hb
    rfl

/-- Witness for C3 at the default parent 10.10.0.0/16 and three zones. -/
theorem claim_C3_witness :
    allocateSubnets ⟨168427520, 16⟩ 3 =
        .ok ((List.range (min 3 250)).map fun i => subnetAt ⟨168427520, 16⟩ (i + 6)) ∧
      (3 + 6 ≤ 2 ^ 8 →
        ((List.range (min 3 250)).map fun i => subnetAt ⟨168427520, 16⟩ (i + 6)).length = 3) ∧
      ((List.range (min 3 250)).map fun i => subnetAt ⟨168427520, 16⟩ (i + 6)).Pairwise
        (fun a b => a.addr < b.addr) ∧
      ∀ b ∈ (List.range (min 3 250)).map fun i => subnetAt ⟨168427520, 16⟩ (i + 6),
        b.plen = 16 + 8 :=
  claim_C3_subnet_enumeration ⟨168427520, 16⟩ 3 (by norm_num)

set_option maxRecDepth 8000 in
/-- Counterexample for C3 as stated: with parent 10.10.0.0/16 and 251
zones the parent cannot yield 6 + 251 sub-blocks at mask length 24 (only
2 ^ 8 exist), yet the allocator does not fail — it silently returns 250
blocks. -/
theorem claim_C3_counterexample :
    (allocateSubnets ⟨168427520, 16⟩ 251).isOk = true ∧
      Except.map List.length (allocateSubnets ⟨168427520, 16⟩ 251) = .ok 250 :=
  ⟨rfl, rfl⟩

/-! ## Variant A: `src/functions/vectordb/function/fn.py`

`VectorDBConfig` and the `_create_*` builder methods of
`VectorDBFunctionRunner`, one Lean definition per method, transcribed
field by field. -/

/-- `VectorDBConfig` (fn.py lines 29-51).  The source field `namespace`
is a Lean keyword and is called `namesp` here. -/
structure ConfigA where
  claim_name : String
  vpc_cidr : String
  region : String
  environment_suffix : String
  master_username : String
  postgres_cluster_name : String
  az_count : Nat := 3
  engine_version : String := "16.1"
  postgres_cluster_min_capacity : ℚ := 0.5
  postgres_cluster_max_capacity : ℚ := 16
  backup_retention_period : Nat := 7
  backup_window : String := "03:00-04:00"
  maintenance_window : String := "sun:04:00-sun:05:00"
  deletion_protection : Bool := false
  namesp : String := "default"
  provider_config_ref : String := "default"
  instance_count : Nat := 2
  instance_class : String := "db.serverless"
  publicly_accessible : Bool := true

/-- `_create_vpc` (fn.py lines 196-228). -/
def create_vpc (c : ConfigA) : Value :=
  .vobj [
    ("apiVersion", .vstr "ec2.aws.upbound.io/v1beta1"),
    ("kind", .vstr "VPC"),
    ("spec", .vobj [
      ("forProvider", .vobj [
        ("region", .vstr c.region),
        ("cidrBlock", .vstr c.vpc_cidr),
        ("enableDnsHostnames", .vbool true),
        ("enableDnsSupport", .vbool true),
        ("tags", .vobj [
          ("Name", .vstr (c.claim_name ++ "-vpc-" ++ c.environment_suffix)),
          ("App", .vstr c.claim_name),
          ("Environment", .vstr c.environment_suffix)])]),
      ("providerConfigRef", .vobj [("name", .vstr c.provider_config_ref)]),
      ("writeConnectionSecretToRef", .vobj [
        ("name", .vstr (c.claim_name ++ "-vpc-" ++ c.environment_suffix)),
        ("namespace", .vstr c.namesp)])]),
    ("metadata", .vobj [
      ("name", .vstr (c.claim_name ++ "-vpc-" ++ c.environment_suffix)),
      ("labels", .vobj [
        ("app", .vstr c.claim_name),
        ("environment", .vstr c.environment_suffix)])])]

/-- `_create_internet_gateway` (fn.py lines 230-265). -/
def create_internet_gateway (c : ConfigA) : Value :=
  .vobj [
    ("apiVersion", .vstr "ec2.aws.upbound.io/v1beta1"),
    ("kind", .vstr "InternetGateway"),
    ("spec", .vobj [
      ("forProvider", .vobj [
        ("region", .vstr c.region),
        ("vpcIdRef", .vobj [
          ("name", .vstr (c.claim_name ++ "-vpc-" ++ c.environment_suffix))]),
        ("tags", .vobj [
          ("Name", .vstr (c.claim_name ++ "-igw-" ++ c.environment_suffix)),
          ("App", .vstr c.claim_name),
          ("Environment", .vstr c.environment_suffix)])]),
      ("providerConfigRef", .vobj [("name", .vstr c.provider_config_ref)]),
      ("writeConnectionSecretToRef", .vobj [
        ("name", .vstr (c.claim_name ++ "-igw-" ++ c.environment_suffix)),
        ("namespace", .vstr c.namesp)])]),
    ("metadata", .vobj [
      ("name", .vstr (c.claim_name ++ "-igw-" ++ c.environment_suffix)),
      ("labels", .vobj [
        ("app", .vstr c.claim_name),
        ("environment", .vstr c.environment_suffix)]),
      ("annotations", .vobj [("crossplane.io/depends-on", .vstr "vpc")])])]

/-- The subnet manifest built for index i in the loop body of
`_create_database_subnets` (fn.py lines 272-311). -/
def subnet_manifest (c : ConfigA) (i : Nat) (cidr az : String) : Value :=
  .vobj [
      ("apiVersion", .vstr "ec2.aws.upbound.io/v1beta1"),
      ("kind", .vstr "Subnet"),
      ("spec", .vobj [
        ("forProvider", .vobj [
          ("region", .vstr c.region),
          ("vpcIdRef", .vobj [
            ("name", .vstr (c.claim_name ++ "-vpc-" ++ c.environment_suffix))]),
          ("cidrBlock", .vstr cidr),
          ("availabilityZone", .vstr az),
          ("mapPublicIpOnLaunch", .vbool true),
          ("tags", .vobj [
            ("Name", .vstr (c.claim_name ++ "-subnet-" ++ toString i ++ "-" ++
              c.environment_suffix)),
            ("App", .vstr c.claim_name),
            ("Environment", .vstr c.environment_suffix),
            ("Type", .vstr "database")])]),
        ("providerConfigRef", .vobj [("name", .vstr c.provider_config_ref)]),
        ("writeConnectionSecretToRef", .vobj [
          ("name", .vstr (c.claim_name ++ "-subnet-" ++ toString i ++ "-" ++
            c.environment_suffix)),
          ("namespace", .vstr c.namesp)])]),
      ("metadata", .vobj [
        ("name", .vstr (c.claim_name ++ "-subnet-" ++ toString i ++ "-" ++
          c.environment_suffix)),
        ("labels", .vobj [
          ("app", .vstr c.claim_name),
          ("environment", .vstr c.environment_suffix),
          ("type", .vstr "database")]),
        ("annotations", .vobj [("crossplane.io/depends-on", .vstr "vpc")])])]

/-- `_create_database_subnets` (fn.py lines 267-314): one subnet per pair
of the non-strict zip of the allocated CIDRs with the three fixed
availability-zone suffixes a, b, c. -/
def create_database_subnets (c : ConfigA) (cidrs : List String) : List Value :=
  let availability_zones := [c.region ++ "a", c.region ++ "b", c.region ++ "c"]
  (cidrs.zip availability_zones).enum.map fun p => subnet_manifest c p.1 p.2.1 p.2.2

/-- The association manifest built for index i in the loop body of
`_create_route_table_associations` (fn.py lines 322-361). -/
def association_manifest (c : ConfigA) (i : Nat) : Value :=
  .vobj [
      ("apiVersion", .vstr "ec2.aws.upbound.io/v1beta1"),
      ("kind", .vstr "RouteTableAssociation"),
      ("spec", .vobj [
        ("forProvider", .vobj [
          ("region", .vstr c.region),
          ("subnetIdRef", .vobj [
            ("name", .vstr (c.claim_name ++ "-subnet-" ++ toString i ++ "-" ++
              c.environment_suffix))]),
          ("routeTableIdRef", .vobj [
            ("name", .vstr (c.claim_name ++ "-route-table-" ++ c.environment_suffix))])]),
        ("providerConfigRef", .vobj [("name", .vstr c.provider_config_ref)]),
        ("writeConnectionSecretToRef", .vobj [
          ("name", .vstr (c.claim_name ++ "-route-table-association-" ++ toString i ++
            "-" ++ c.environment_suffix)),
          ("namespace", .vstr c.namesp)])]),
      ("metadata", .vobj [
        ("name", .vstr (c.claim_name ++ "-route-table-association-" ++ toString i ++
          "-" ++ c.environment_suffix)),
        ("labels", .vobj [
          ("app", .vstr c.claim_name),
          ("environment", .vstr c.environment_suffix),
          ("type", .vstr "database")]),
        ("annotations", .vobj [
          ("crossplane.io/depends-on", .vstr ("subnet_" ++ toString i ++ ",route_table"))])])]

/-- `_create_route_table_associations` (fn.py lines 316-364). -/
def create_route_table_associations (c : ConfigA) (subnet_count : Nat) : List Value :=
  (List.range subnet_count).map fun i => association_manifest c i

/-- `_create_igw_route` (fn.py lines 366-401). -/
def create_igw_route (c : ConfigA) : Value :=
  .vobj [
    ("apiVersion", .vstr "ec2.aws.upbound.io/v1beta1"),
    ("kind", .vstr "Route"),
    ("spec", .vobj [
      ("forProvider", .vobj [
        ("region", .vstr c.region),
        ("destinationCidrBlock", .vstr "0.0.0.0/0"),
        ("gatewayIdRef", .vobj [
          ("name", .vstr (c.claim_name ++ "-igw-" ++ c.environment_suffix))]),
        ("routeTableIdRef", .vobj [
          ("name", .vstr (c.claim_name ++ "-route-table-" ++ c.environment_suffix))])]),
      ("providerConfigRef", .vobj [("name", .vstr c.provider_config_ref)]),
      ("writeConnectionSecretToRef", .vobj [
        ("name", .vstr (c.claim_name ++ "-igw-route-" ++ c.environment_suffix)),
        ("namespace", .vstr c.namesp)])]),
    ("metadata", .vobj [
      ("name", .vstr (c.claim_name ++ "-igw-route-" ++ c.environment_suffix)),
      ("labels", .vobj [
        ("app", .vstr c.claim_name),
        ("environment", .vstr c.environment_suffix),
        ("type", .vstr "database")]),
      ("annotations", .vobj [
        ("crossplane.io/depends-on", .vstr "internet_gateway,route_table")])])]

/-- `_create_database_route_table` (fn.py lines 403-440). -/
def create_database_route_table (c : ConfigA) : Value :=
  .vobj [
    ("apiVersion", .vstr "ec2.aws.upbound.io/v1beta1"),
    ("kind", .vstr "RouteTable"),
    ("spec", .vobj [
      ("forProvider", .vobj [
        ("region", .vstr c.region),
        ("vpcIdRef", .vobj [
          ("name", .vstr (c.claim_name ++ "-vpc-" ++ c.environment_suffix))]),
        ("tags", .vobj [
          ("Name", .vstr (c.claim_name ++ "-route-table-" ++ c.environment_suffix)),
          ("App", .vstr c.claim_name),
          ("Environment", .vstr c.environment_suffix),
          ("Type", .vstr "database")])]),
      ("providerConfigRef", .vobj [("name", .vstr c.provider_config_ref)]),
      ("writeConnectionSecretToRef", .vobj [
        ("name", .vstr (c.claim_name ++ "-route-table-" ++ c.environment_suffix)),
        ("namespace", .vstr c.namesp)])]),
    ("metadata", .vobj [
      ("name", .vstr (c.claim_name ++ "-route-table-" ++ c.environment_suffix)),
      ("labels", .vobj [
        ("app", .vstr c.claim_name),
        ("environment", .vstr c.environment_suffix),
        ("type", .vstr "database")]),
      ("annotations", .vobj [("crossplane.io/depends-on", .vstr "vpc")])])]

/-- `_create_database_security_group` (fn.py lines 442-477). -/
def create_database_security_group (c : ConfigA) : Value :=
  .vobj [
    ("apiVersion", .vstr "ec2.aws.upbound.io/v1beta1"),
    ("kind", .vstr "SecurityGroup"),
    ("spec", .vobj [
      ("forProvider", .vobj [
        ("region", .vstr c.region),
        ("vpcIdRef", .vobj [
          ("name", .vstr (c.claim_name ++ "-vpc-" ++ c.environment_suffix))]),
        ("tags", .vobj [
          ("Name", .vstr (c.claim_name ++ "-security-group-" ++ c.environment_suffix)),
          ("App", .vstr c.claim_name),
          ("Environment", .vstr c.environment_suffix)])]),
      ("providerConfigRef", .vobj [("name", .vstr c.provider_config_ref)]),
      ("writeConnectionSecretToRef", .vobj [
        ("name", .vstr (c.claim_name ++ "-security-group-" ++ c.environment_suffix)),
        ("namespace", .vstr c.namesp)])]),
    ("metadata", .vobj [
      ("name", .vstr (c.claim_name ++ "-security-group-" ++ c.environment_suffix)),
      ("labels", .vobj [
        ("app", .vstr c.claim_name),
        ("environment", .vstr c.environment_suffix)]),
      ("annotations", .vobj [("crossplane.io/depends-on", .vstr "vpc")])])]

/-- `_create_security_group_rule` (fn.py lines 479-511). -/
def create_security_group_rule (c : ConfigA) : Value :=
  .vobj [
    ("apiVersion", .vstr "ec2.aws.upbound.io/v1beta1"),
    ("kind", .vstr "SecurityGroupRule"),
    ("spec", .vobj [
      ("forProvider", .vobj [
        ("region", .vstr c.region),
        ("type", .vstr "ingress"),
        ("fromPort", .vnum 5432),
        ("toPort", .vnum 5432),
        ("protocol", .vstr "tcp"),
        ("cidrBlocks", .varr [.vstr "0.0.0.0/0"]),
        ("description", .vstr "PostgreSQL access"),
        ("securityGroupIdRef", .vobj [
          ("name", .vstr (c.claim_name ++ "-security-group-" ++ c.environment_suffix))])]),
      ("providerConfigRef", .vobj [("name", .vstr c.provider_config_ref)])]),
    ("metadata", .vobj [
      ("name", .vstr (c.claim_name ++ "-postgres-ingress-" ++ c.environment_suffix)),
      ("labels", .vobj [
        ("app", .vstr c.claim_name),
        ("environment", .vstr c.environment_suffix)]),
      ("annotations", .vobj [("crossplane.io/depends-on", .vstr "security_group")])])]

/-- `_create_egress_rule` (fn.py lines 513-545). -/
def create_egress_rule (c : ConfigA) : Value :=
  .vobj [
    ("apiVersion", .vstr "ec2.aws.upbound.io/v1beta1"),
    ("kind", .vstr "SecurityGroupRule"),
    ("spec", .vobj [
      ("forProvider", .vobj [
        ("region", .vstr c.region),
        ("type", .vstr "egress"),
        ("fromPort", .vnum 0),
        ("toPort", .vnum 0),
        ("protocol", .vstr "-1"),
        ("cidrBlocks", .varr [.vstr "0.0.0.0/0"]),
        ("description", .vstr "Allow all outbound traffic"),
        ("securityGroupIdRef", .vobj [
          ("name", .vstr (c.claim_name ++ "-security-group-" ++ c.environment_suffix))])]),
      ("providerConfigRef", .vobj [("name", .vstr c.provider_config_ref)])]),
    ("metadata", .vobj [
      ("name", .vstr (c.claim_name ++ "-egress-all-" ++ c.environment_suffix)),
      ("labels", .vobj [
        ("app", .vstr c.claim_name),
        ("environment", .vstr c.environment_suffix)]),
      ("annotations", .vobj [("crossplane.io/depends-on", .vstr "security_group")])])]

/-- `_create_subnet_group` (fn.py lines 547-586): references one subnet
name per index below `az_count`, regardless of how many subnets exist. -/
def create_subnet_group (c : ConfigA) : Value :=
  .vobj [
    ("apiVersion", .vstr "rds.aws.upbound.io/v1beta1"),
    ("kind", .vstr "SubnetGroup"),
    ("spec", .vobj [
      ("forProvider", .vobj [
        ("region", .vstr c.region),
        ("subnetIdRefs", .varr ((List.range c.az_count).map fun i =>
          .vobj [("name", .vstr (c.claim_name ++ "-subnet-" ++ toString i ++ "-" ++
            c.environment_suffix))])),
        ("description", .vstr ("Subnet group for " ++ c.postgres_cluster_name)),
        ("tags", .vobj [
          ("Name", .vstr (c.claim_name ++ "-subnet-group-" ++ c.environment_suffix)),
          ("App", .vstr c.claim_name),
          ("Environment", .vstr c.environment_suffix)])]),
      ("providerConfigRef", .vobj [("name", .vstr c.provider_config_ref)]),
      ("writeConnectionSecretToRef", .vobj [
        ("name", .vstr (c.claim_name ++ "-subnet-group-" ++ c.environment_suffix)),
        ("namespace", .vstr c.namesp)])]),
    ("metadata", .vobj [
      ("name", .vstr (c.claim_name ++ "-subnet-group-" ++ c.environment_suffix)),
      ("labels", .vobj [
        ("app", .vstr c.claim_name),
        ("environment", .vstr c.environment_suffix)]),
      ("annotations", .vobj [
        ("crossplane.io/depends-on", .vstr (String.intercalate ","
          ((List.range c.az_count).map fun i => "subnet_" ++ toString i)))])])]

/-- `_create_aurora_cluster` (fn.py lines 588-657).  Note that
`masterPasswordSecretRef` names the secret
`claim_name ++ "-password-" ++ environment_suffix`, and that the
depends-on annotation mentions a `password_secret` resource; neither is
created anywhere in `RunFunction`. -/
def create_aurora_cluster (c : ConfigA) : Value :=
  .vobj [
    ("apiVersion", .vstr "rds.aws.upbound.io/v1beta1"),
    ("kind", .vstr "Cluster"),
    ("spec", .vobj [
      ("forProvider", .vobj [
        ("region", .vstr c.region),
        ("engine", .vstr "aurora-postgresql"),
        ("engineVersion", .vstr c.engine_version),
        ("engineMode", .vstr "provisioned"),
        ("storageEncrypted", .vbool true),
        ("masterUsername", .vstr c.master_username),
        ("autoGeneratePassword", .vbool true),
        ("masterPasswordSecretRef", .vobj [
          ("name", .vstr (c.claim_name ++ "-password-" ++ c.environment_suffix)),
          ("namespace", .vstr c.namesp),
          ("key", .vstr "password")]),
        ("dbSubnetGroupNameRef", .vobj [
          ("name", .vstr (c.claim_name ++ "-subnet-group-" ++ c.environment_suffix))]),
        ("vpcSecurityGroupIdRefs", .varr [
          .vobj [("name", .vstr (c.claim_name ++ "-security-group-" ++
            c.environment_suffix))]]),
        ("backupRetentionPeriod", .vnum c.backup_retention_period),
        ("preferredBackupWindow", .vstr c.backup_window),
        ("preferredMaintenanceWindow", .vstr c.maintenance_window),
        ("serverlessv2ScalingConfiguration", .varr [
          .vobj [
            ("minCapacity", .vnum c.postgres_cluster_min_capacity),
            ("maxCapacity", .vnum c.postgres_cluster_max_capacity)]]),
        ("deletionProtection", .vbool c.deletion_protection),
        ("skipFinalSnapshot", .vbool false),
        ("finalSnapshotIdentifier", .vstr (c.claim_name ++ "-final-snapshot-" ++
          c.environment_suffix)),
        ("copyTagsToSnapshot", .vbool true),
        ("iamDatabaseAuthenticationEnabled", .vbool false),
        ("enableHttpEndpoint", .vbool false),
        ("performanceInsightsEnabled", .vbool true),
        ("performanceInsightsRetentionPeriod", .vnum 7),
        ("dbClusterParameterGroupName", .vstr "default.aurora-postgresql16"),
        ("tags", .vobj [
          ("Name", .vstr (c.claim_name ++ "-cluster-" ++ c.environment_suffix)),
          ("App", .vstr c.claim_name),
          ("Environment", .vstr c.environment_suffix)])]),
      ("providerConfigRef", .vobj [("name", .vstr c.provider_config_ref)]),
      ("writeConnectionSecretToRef", .vobj [
        ("name", .vstr (c.claim_name ++ "-cluster-" ++ c.environment_suffix)),
        ("namespace", .vstr c.namesp)])]),
    ("metadata", .vobj [
      ("name", .vstr c.postgres_cluster_name),
      ("labels", .vobj [
        ("app", .vstr c.claim_name),
        ("environment", .vstr c.environment_suffix)]),
      ("annotations", .vobj [
        ("crossplane.io/depends-on", .vstr "subnet_group,security_group,password_secret")])])]

/-- The instance manifest built for index i in the loop body of
`_create_aurora_instances` (fn.py lines 662-720), with `promotionTier`
equal to the 0-based index i. -/
def aurora_instance_manifest (c : ConfigA) (i : Nat) : Value :=
  .vobj [
      ("apiVersion", .vstr "rds.aws.upbound.io/v1beta1"),
      ("kind", .vstr "ClusterInstance"),
      ("spec", .vobj [
        ("forProvider", .vobj [
          ("region", .vstr c.region),
          ("engine", .vstr "aurora-postgresql"),
          ("engineVersion", .vstr c.engine_version),
          ("instanceClass", .vstr c.instance_class),
          ("publiclyAccessible", .vbool c.publicly_accessible),
          ("clusterIdentifierRef", .vobj [
            ("name", .vstr c.postgres_cluster_name)]),
          ("dbSubnetGroupNameRef", .vobj [
            ("name", .vstr (c.claim_name ++ "-subnet-group-" ++ c.environment_suffix))]),
          ("performanceInsightsEnabled", .vbool true),
          ("performanceInsightsRetentionPeriod", .vnum 7),
          ("dbParameterGroupName", .vstr "default.aurora-postgresql16"),
          ("autoMinorVersionUpgrade", .vbool true),
          ("monitoringInterval", .vnum 60),
          ("monitoringRoleArnRef", .vobj [
            ("name", .vstr (c.claim_name ++ "-monitoring-role-" ++ c.environment_suffix))]),
          ("promotionTier", .vnum i),
          ("tags", .vobj [
            ("Name", .vstr (c.claim_name ++ "-instance-" ++ toString (i + 1) ++ "-" ++
              c.environment_suffix)),
            ("App", .vstr c.claim_name),
            ("Environment", .vstr c.environment_suffix)])]),
        ("providerConfigRef", .vobj [("name", .vstr c.provider_config_ref)]),
        ("writeConnectionSecretToRef", .vobj [
          ("name", .vstr (c.claim_name ++ "-instance-" ++ toString (i + 1) ++ "-" ++
            c.environment_suffix)),
          ("namespace", .vstr c.namesp)])]),
      ("metadata", .vobj [
        ("name", .vstr (c.postgres_cluster_name ++ "-instance-" ++ toString (i + 1))),
        ("labels", .vobj [
          ("app", .vstr c.claim_name),
          ("environment", .vstr c.environment_suffix)]),
        ("annotations", .vobj [
          ("crossplane.io/depends-on",
            .vstr "aurora_cluster,subnet_group,security_group,monitoring_role")])])]

/-- `_create_aurora_instances` (fn.py lines 659-721): one instance per
index below `instance_count`. -/
def create_aurora_instances (c : ConfigA) : List Value :=
  (List.range c.instance_count).map fun i => aurora_instance_manifest c i

/-- `_create_monitoring_role` (fn.py lines 723-764).  The
`assumeRolePolicy` string is the `json.dumps` output of the policy dict. -/
def create_monitoring_role (c : ConfigA) : Value :=
  .vobj [
    ("apiVersion", .vstr "iam.aws.upbound.io/v1beta1"),
    ("kind", .vstr "Role"),
    ("spec", .vobj [
      ("forProvider", .vobj [
        ("assumeRolePolicy", .vstr "\x7b\"Version\": \"2012-10-17\", \"Statement\": [\x7b\"Sid\": \"\", \"Effect\": \"Allow\", \"Principal\": \x7b\"Service\": \"monitoring.rds.amazonaws.com\"\x7d, \"Action\": \"sts:AssumeRole\"\x7d]\x7d"),
        ("description", .vstr ("Role for RDS enhanced monitoring for " ++ c.claim_name)),
        ("managedPolicyArns", .varr [
          .vstr "arn:aws:iam::aws:policy/service-role/AmazonRDSEnhancedMonitoringRole"]),
        ("tags", .vobj [
          ("Name", .vstr (c.claim_name ++ "-monitoring-role-" ++ c.environment_suffix)),
          ("App", .vstr c.claim_name),
          ("Environment", .vstr c.environment_suffix)])]),
      ("providerConfigRef", .vobj [("name", .vstr c.provider_config_ref)])]),
    ("metadata", .vobj [
      ("name", .vstr (c.claim_name ++ "-monitoring-role-" ++ c.environment_suffix)),
      ("labels", .vobj [
        ("app", .vstr c.claim_name),
        ("environment", .vstr c.environment_suffix)])])]

/-- The desired-resources map assembled by `RunFunction` (fn.py lines
77-144) from a configuration and the allocated subnet CIDRs, in the
fixed source order. -/
def assembleA (c : ConfigA) (subnet_cidrs : List String) : Graph :=
  let subnet_resources := create_database_subnets c subnet_cidrs
  [("vpc", create_vpc c), ("internet_gateway", create_internet_gateway c)] ++
  (subnet_resources.enum.map fun p => ("subnet_" ++ toString p.1, p.2)) ++
  [("route_table", create_database_route_table c),
   ("igw_route", create_igw_route c)] ++
  ((create_route_table_associations c subnet_resources.length).enum.map fun p =>
    ("route_table_association_" ++ toString p.1, p.2)) ++
  [("security_group", create_database_security_group c),
   ("security_group_rule", create_security_group_rule c),
   ("egress_rule", create_egress_rule c),
   ("subnet_group", create_subnet_group c),
   ("monitoring_role", create_monitoring_role c),
   ("aurora_cluster", create_aurora_cluster c)] ++
  ((create_aurora_instances c).enum.map fun p =>
    ("aurora_instance_" ++ toString (p.1 + 1), p.2))

/-- `RunFunction` of `VectorDBFunctionRunner` (fn.py lines 61-146),
starting from an already-extracted configuration: allocate the subnet
CIDRs (any exception propagates, nothing is caught) and assemble the
desired-resources map. -/
def runFunctionA (c : ConfigA) : Except PyErr Graph :=
  match calculate_subnet_cidrs c.vpc_cidr c.az_count with
  | .error e => .error e
  | .ok subnet_cidrs => .ok (assembleA c subnet_cidrs)

/-- The default configuration: the values `_extract_config` produces for
a request whose composite resource has an empty spec and no metadata. -/
def defaultConfigA : ConfigA :=
  { claim_name := "vectordb"
    vpc_cidr := "10.10.0.0/16"
    region := "us-west-2"
    environment_suffix := "dev"
    master_username := "postgres"
    postgres_cluster_name := "vectordb-cluster" }

/-! ## Logical names of the variant A descriptors -/

/-- Name of the VPC descriptor. -/
def vpcNameA (c : ConfigA) : String := c.claim_name ++ "-vpc-" ++ c.environment_suffix

/-- Name of the internet gateway descriptor. -/
def igwNameA (c : ConfigA) : String := c.claim_name ++ "-igw-" ++ c.environment_suffix

/-- Name of the i-th subnet descriptor. -/
def subnetNameA (c : ConfigA) (i : Nat) : String :=
  c.claim_name ++ "-subnet-" ++ toString i ++ "-" ++ c.environment_suffix

/-- Name of the route table descriptor. -/
def rtNameA (c : ConfigA) : String :=
  c.claim_name ++ "-route-table-" ++ c.environment_suffix

/-- Name of the internet gateway route descriptor. -/
def igwRouteNameA (c : ConfigA) : String :=
  c.claim_name ++ "-igw-route-" ++ c.environment_suffix

/-- Name of the i-th route table association descriptor. -/
def assocNameA (c : ConfigA) (i : Nat) : String :=
  c.claim_name ++ "-route-table-association-" ++ toString i ++ "-" ++ c.environment_suffix

/-- Name of the security group descriptor. -/
def sgNameA (c : ConfigA) : String :=
  c.claim_name ++ "-security-group-" ++ c.environment_suffix

/-- Name of the ingress rule descriptor. -/
def ingressNameA (c : ConfigA) : String :=
  c.claim_name ++ "-postgres-ingress-" ++ c.environment_suffix

/-- Name of the egress rule descriptor. -/
def egressNameA (c : ConfigA) : String :=
  c.claim_name ++ "-egress-all-" ++ c.environment_suffix

/-- Name of the subnet group descriptor. -/
def sngNameA (c : ConfigA) : String :=
  c.claim_name ++ "-subnet-group-" ++ c.environment_suffix

/-- Name of the monitoring role descriptor. -/
def monNameA (c : ConfigA) : String :=
  c.claim_name ++ "-monitoring-role-" ++ c.environment_suffix

/-- Name of the password secret that the aurora cluster references. -/
def passwordNameA (c : ConfigA) : String :=
  c.claim_name ++ "-password-" ++ c.environment_suffix

/-- Name of the i-th aurora instance descriptor (1-based suffix). -/
def instNameA (c : ConfigA) (i : Nat) : String :=
  c.postgres_cluster_name ++ "-instance-" ++ toString (i + 1)

theorem refNames_create_vpc (c : ConfigA) : refNames (create_vpc c) = [] := rfl

theorem refNames_create_internet_gateway (c : ConfigA) :
    refNames (create_internet_gateway c) = [vpcNameA c] := rfl

theorem refNames_subnet_manifest (c : ConfigA) (i : Nat) (cidr az : String) :
    refNames (subnet_manifest c i cidr az) = [vpcNameA c] := rfl

theorem refNames_association_manifest (c : ConfigA) (i : Nat) :
    refNames (association_manifest c i) = [subnetNameA c i, rtNameA c] := rfl

theorem refNames_create_igw_route (c : ConfigA) :
    refNames (create_igw_route c) = [igwNameA c, rtNameA c] := rfl

theorem refNames_create_database_route_table (c : ConfigA) :
    refNames (create_database_route_table c) = [vpcNameA c] := rfl

theorem refNames_create_database_security_group (c : ConfigA) :
    refNames (create_database_security_group c) = [vpcNameA c] := rfl

theorem refNames_create_security_group_rule (c : ConfigA) :
    refNames (create_security_group_rule c) = [sgNameA c] := rfl

theorem refNames_create_egress_rule (c : ConfigA) :
    refNames (create_egress_rule c) = [sgNameA c] := rfl

theorem refNames_create_monitoring_role (c : ConfigA) :
    refNames (create_monitoring_role c) = [] := rfl

theorem refNames_create_aurora_cluster (c : ConfigA) :
    refNames (create_aurora_cluster c) = [passwordNameA c, sngNameA c, sgNameA c] := rfl

theorem refNames_aurora_instance_manifest (c : ConfigA) (i : Nat) :
    refNames (aurora_instance_manifest c i) =
      [c.postgres_cluster_name, sngNameA c, monNameA c] := rfl

theorem refNames_create_subnet_group (c : ConfigA) :
    refNames (create_subnet_group c) = (List.range c.az_count).map (subnetNameA c) := by
  simp [create_subnet_group, refNames, refNamesFields, refNamesList, extractRefNames,
    refKeys]
  rw [List.flatMap_map, List.map_eq_flatMap]
  rfl

theorem metaName_create_vpc (c : ConfigA) :
    metaName (create_vpc c) = some (vpcNameA c) := rfl

theorem metaName_create_internet_gateway (c : ConfigA) :
    metaName (create_internet_gateway c) = some (igwNameA c) := rfl

theorem metaName_subnet_manifest (c : ConfigA) (i : Nat) (cidr az : String) :
    metaName (subnet_manifest c i cidr az) = some (subnetNameA c i) := rfl

theorem metaName_association_manifest (c : ConfigA) (i : Nat) :
    metaName (association_manifest c i) = some (assocNameA c i) := rfl

theorem metaName_create_igw_route (c : ConfigA) :
    metaName (create_igw_route c) = some (igwRouteNameA c) := rfl

theorem metaName_create_database_route_table (c : ConfigA) :
    metaName (create_database_route_table c) = some (rtNameA c) := rfl

theorem metaName_create_database_security_group (c : ConfigA) :
    metaName (create_database_security_group c) = some (sgNameA c) := rfl

theorem metaName_create_security_group_rule (c : ConfigA) :
    metaName (create_security_group_rule c) = some (ingressNameA c) := rfl

theorem metaName_create_egress_rule (c : ConfigA) :
    metaName (create_egress_rule c) = some (egressNameA c) := rfl

theorem metaName_create_subnet_group (c : ConfigA) :
    metaName (create_subnet_group c) = some (sngNameA c) := rfl

theorem metaName_create_monitoring_role (c : ConfigA) :
    metaName (create_monitoring_role c) = some (monNameA c) := rfl

theorem metaName_create_aurora_cluster (c : ConfigA) :
    metaName (create_aurora_cluster c) = some c.postgres_cluster_name := rfl

theorem metaName_aurora_instance_manifest (c : ConfigA) (i : Nat) :
    metaName (aurora_instance_manifest c i) = some (instNameA c i) := rfl

theorem graphMetaNames_append (a b : List (String × Value)) :
    graphMetaNames (a ++ b) = graphMetaNames a ++ graphMetaNames b :=
  List.filterMap_append a b _

theorem graphRefNames_append (a b : List (String × Value)) :
    graphRefNames (a ++ b) = graphRefNames a ++ graphRefNames b :=
  List.flatMap_append a b _

theorem graphRefNames_enum_map (L : List Value) (h : Nat × Value → String × Value)
    (hh : ∀ p, (h p).2 = p.2) :
    graphRefNames (L.enum.map h) = L.flatMap refNames := by
  unfold graphRefNames
  rw [List.flatMap_map]
  rw [show (fun a : Nat × Value => refNames (h a).2) =
      fun a : Nat × Value => refNames a.2 from funext fun p => by rw [hh]]
  conv_rhs => rw [← List.enum_map_snd L]
  rw [List.flatMap_map]

theorem graphMetaNames_enum_map (L : List Value) (h : Nat × Value → String × Value)
    (hh : ∀ p, (h p).2 = p.2) :
    graphMetaNames (L.enum.map h) = L.filterMap metaName := by
  unfold graphMetaNames
  rw [List.filterMap_map]
  rw [show ((fun p : String × Value => metaName p.2) ∘ h) =
      fun a : Nat × Value => metaName a.2 from funext fun p => by
    simp only [Function.comp_apply, hh]]
  conv_rhs => rw [← List.enum_map_snd L]
  rw [List.filterMap_map]
  rfl

theorem create_database_subnets_length (c : ConfigA) (cidrs : List String) :
    (create_database_subnets c cidrs).length = min cidrs.length 3 := by
  unfold create_database_subnets
  simp

theorem filterMap_metaName_subnets (c : ConfigA) (cidrs : List String) :
    (create_database_subnets c cidrs).filterMap metaName =
      (List.range (min cidrs.length 3)).map (subnetNameA c) := by
  unfold create_database_subnets
  rw [List.filterMap_map]
  rw [show (metaName ∘ fun p : Nat × (String × String) =>
      subnet_manifest c p.1 p.2.1 p.2.2) =
    some ∘ (fun p : Nat × (String × String) => subnetNameA c p.1) from rfl]
  rw [List.filterMap_eq_map]
  rw [show (fun p : Nat × (String × String) => subnetNameA c p.1) =
    subnetNameA c ∘ Prod.fst from rfl]
  rw [← List.map_map, List.enum_map_fst]
  simp

theorem filterMap_metaName_assocs (c : ConfigA) (n : Nat) :
    (create_route_table_associations c n).filterMap metaName =
      (List.range n).map (assocNameA c) := by
  unfold create_route_table_associations
  rw [List.filterMap_map]
  rw [show (metaName ∘ fun i => association_manifest c i) =
    some ∘ assocNameA c from rfl]
  rw [List.filterMap_eq_map]

theorem filterMap_metaName_instances (c : ConfigA) :
    (create_aurora_instances c).filterMap metaName =
      (List.range c.instance_count).map (instNameA c) := by
  unfold create_aurora_instances
  rw [List.filterMap_map]
  rw [show (metaName ∘ fun i => aurora_instance_manifest c i) =
    some ∘ instNameA c from rfl]
  rw [List.filterMap_eq_map]

theorem graphMetaNames_assembleA (c : ConfigA) (cidrs : List String) :
    graphMetaNames (assembleA c cidrs) =
      [vpcNameA c, igwNameA c] ++
      (List.range (min cidrs.length 3)).map (subnetNameA c) ++
      [rtNameA c, igwRouteNameA c] ++
      (List.range (min cidrs.length 3)).map (assocNameA c) ++
      [sgNameA c, ingressNameA c, egressNameA c, sngNameA c, monNameA c,
        c.postgres_cluster_name] ++
      (List.range c.instance_count).map (instNameA c) := by
  unfold assembleA
  simp only [graphMetaNames_append]
  rw [graphMetaNames_enum_map _ _ (fun p => rfl), graphMetaNames_enum_map _ _ (fun p => rfl),
    graphMetaNames_enum_map _ _ (fun p => rfl)]
  rw [filterMap_metaName_subnets, create_database_subnets_length,
    filterMap_metaName_assocs, filterMap_metaName_instances]
  rfl

theorem mem_flatMap_refNames_subnets (c : ConfigA) (cidrs : List String) (r : String)
    (hr : r ∈ (create_database_subnets c cidrs).flatMap refNames) : r = vpcNameA c := by
  unfold create_database_subnets at hr
  rw [List.flatMap_map, List.mem_flatMap] at hr
  obtain ⟨p, _, hp⟩ := hr
  rw [refNames_subnet_manifest] at hp
  simpa using hp

theorem mem_flatMap_refNames_assocs (c : ConfigA) (n : Nat) (r : String)
    (hr : r ∈ (create_route_table_associations c n).flatMap refNames) :
    (∃ i, i < n ∧ r = subnetNameA c i) ∨ r = rtNameA c := by
  unfold create_route_table_associations at hr
  rw [List.flatMap_map, List.mem_flatMap] at hr
  obtain ⟨i, hi, hp⟩ := hr
  rw [List.mem_range] at hi
  rw [refNames_association_manifest, List.mem_cons, List.mem_singleton] at hp
  rcases hp with hp | hp
  · exact Or.inl ⟨i, hi, hp⟩
  · exact Or.inr hp

theorem mem_flatMap_refNames_instances (c : ConfigA) (r : String)
    (hr : r ∈ (create_aurora_instances c).flatMap refNames) :
    r = c.postgres_cluster_name ∨ r = sngNameA c ∨ r = monNameA c := by
  unfold create_aurora_instances at hr
  rw [List.flatMap_map, List.mem_flatMap] at hr
  obtain ⟨i, _, hp⟩ := hr
  rw [refNames_aurora_instance_manifest, List.mem_cons, List.mem_cons,
    List.mem_singleton] at hp
  exact hp

theorem mem_graphRefNames_assembleA (c : ConfigA) (cidrs : List String) (r : String)
    (hr : r ∈ graphRefNames (assembleA c cidrs)) :
    r = vpcNameA c ∨ r = igwNameA c ∨ r = rtNameA c ∨ r = sgNameA c ∨
    r = sngNameA c ∨ r = monNameA c ∨ r = passwordNameA c ∨
    r = c.postgres_cluster_name ∨
    (∃ i, i < min cidrs.length 3 ∧ r = subnetNameA c i) ∨
    (∃ i, i < c.az_count ∧ r = subnetNameA c i) := by
  unfold assembleA at hr
  simp only [graphRefNames_append, List.mem_append] at hr
  rw [graphRefNames_enum_map _ _ (fun p => rfl), graphRefNames_enum_map _ _ (fun p => rfl),
    graphRefNames_enum_map _ _ (fun p => rfl)] at hr
  rcases hr with ((((hr | hr) | hr) | hr) | hr) | hr
  · -- vpc and internet gateway chunk
    unfold graphRefNames at hr
    simp only [List.flatMap_cons, List.flatMap_nil, refNames_create_vpc,
      refNames_create_internet_gateway, List.append_nil, List.nil_append,
      List.mem_singleton] at hr
    exact Or.inl hr
  · -- subnets chunk
    exact Or.inl (mem_flatMap_refNames_subnets c cidrs r hr)
  · -- route table and igw route chunk
    unfold graphRefNames at hr
    simp only [List.flatMap_cons, List.flatMap_nil, refNames_create_database_route_table,
      refNames_create_igw_route, List.append_nil, List.mem_append, List.mem_cons,
      List.mem_singleton, List.not_mem_nil, or_false] at hr
    rcases hr with hr | hr | hr
    · exact Or.inl hr
    · exact Or.inr (Or.inl hr)
    · exact Or.inr (Or.inr (Or.inl hr))
  · -- associations chunk
    rw [create_database_subnets_length] at hr
    rcases mem_flatMap_refNames_assocs c _ r hr with ⟨i, hi, rfl⟩ | hr
    · exact Or.inr (Or.inr (Or.inr (Or.inr (Or.inr (Or.inr (Or.inr (Or.inr
        (Or.inl ⟨i, hi, rfl⟩))))))))
    · exact Or.inr (Or.inr (Or.inl hr))
  · -- security group, rules, subnet group, monitoring role, cluster chunk
    unfold graphRefNames at hr
    simp only [List.flatMap_cons, List.flatMap_nil, refNames_create_database_security_group,
      refNames_create_security_group_rule, refNames_create_egress_rule,
      refNames_create_subnet_group, refNames_create_monitoring_role,
      refNames_create_aurora_cluster, List.append_nil, List.nil_append, List.mem_append,
      List.mem_cons, List.mem_singleton, List.not_mem_nil, or_false, List.mem_map,
      List.mem_range] at hr
    rcases hr with hr | hr | hr | ⟨i, hi, rfl⟩ | hr | hr | hr
    · exact Or.inl hr
    · exact Or.inr (Or.inr (Or.inr (Or.inl hr)))
    · exact Or.inr (Or.inr (Or.inr (Or.inl hr)))
    · exact Or.inr (Or.inr (Or.inr (Or.inr (Or.inr (Or.inr (Or.inr (Or.inr
        (Or.inr ⟨i, hi, rfl⟩))))))))
    · exact Or.inr (Or.inr (Or.inr (Or.inr (Or.inr (Or.inr (Or.inl hr))))))
    · exact Or.inr (Or.inr (Or.inr (Or.inr (Or.inl hr))))
    · exact Or.inr (Or.inr (Or.inr (Or.inl hr)))
  · -- instances chunk
    rcases mem_flatMap_refNames_instances c r hr with hr | hr | hr
    · exact Or.inr (Or.inr (Or.inr (Or.inr (Or.inr (Or.inr (Or.inr (Or.inl hr)))))))
    · exact Or.inr (Or.inr (Or.inr (Or.inr (Or.inl hr))))
    · exact Or.inr (Or.inr (Or.inr (Or.inr (Or.inr (Or.inl hr)))))

theorem allocateSubnets_ok_length (net : IPv4Net) (az : Nat) (blocks : List IPv4Net)
    (h24 : net.plen + 8 ≤ 32)
    (h : allocateSubnets net az = .ok blocks) : blocks.length = min az 250 := by
  unfold allocateSubnets at h
  by_cases h0 : az = 0
  · rw [if_pos h0] at h
    obtain rfl := Except.ok.inj h
    subst h0
    simp
  · rw [if_neg h0, if_neg (by omega : ¬ net.plen = 32),
      if_neg (by omega : ¬ 32 < net.plen + 8)] at h
    obtain rfl := Except.ok.inj h
    rw [alloc_filterMap_eq_map (fun i => subnetAt net (i + 6))]
    simp

theorem calculate_subnet_cidrs_ok_length (s : String) (az : Nat) (cidrs : List String)
    (net : IPv4Net) (hp : parseCidr s = some net) (h24 : net.plen + 8 ≤ 32)
    (h : calculate_subnet_cidrs s az = .ok cidrs) : cidrs.length = min az 250 := by
  unfold calculate_subnet_cidrs at h
  rw [hp] at h
  dsimp only at h
  cases ha : allocateSubnets net az with
  | error e =>
    rw [ha] at h
    simp [Except.map] at h
  | ok blocks =>
    rw [ha] at h
    simp only [Except.map] at h
    obtain rfl := Except.ok.inj h
    rw [List.length_map]
    exact allocateSubnets_ok_length net az blocks h24 ha

/-- C1 (amended): in every graph that `RunFunction` of
`VectorDBFunctionRunner` produces from a configuration with at most 3
availability zones whose VPC CIDR parses to a network of mask length at
most 24 (so that the database subnet tier is actually allocated — a /32
parent yields no subnets, leaving the subnet-group references dangling
as well, see `slash32_subnet_refs_dangle`), every name-reference inside
a descriptor payload either resolves to the `metadata.name` of a
descriptor present in the same graph, or is the aurora cluster
`masterPasswordSecretRef` target — the password secret name, which no
descriptor of the graph carries. -/
theorem claim_C1_reference_closure (c : ConfigA) (g : Graph) (net : IPv4Net)
    (hok : runFunctionA c = .ok g) (hp : parseCidr c.vpc_cidr = some net)
    (h24 : net.plen ≤ 24) (h3 : c.az_count ≤ 3) :
    ∀ r ∈ graphRefNames g, r ∈ graphMetaNames g ∨ r = passwordNameA c := by
  unfold runFunctionA at hok
  cases hcalc : calculate_subnet_cidrs c.vpc_cidr c.az_count with
  | error e => rw [hcalc] at hok; cases hok
  | ok cidrs =>
    rw [hcalc] at hok
    obtain rfl := Except.ok.inj hok
    have hlen : cidrs.length = min c.az_count 250 :=
      calculate_subnet_cidrs_ok_length _ _ _ net hp (by omega) hcalc
    have hmin : min cidrs.length 3 = c.az_count := by omega
    intro r hr
    rcases mem_graphRefNames_assembleA c cidrs r hr with
      rfl | rfl | rfl | rfl | rfl | rfl | rfl | rfl | ⟨i, hi, rfl⟩ | ⟨i, hi, rfl⟩
    · left; rw [graphMetaNames_assembleA]; simp
    · left; rw [graphMetaNames_assembleA]; simp
    · left; rw [graphMetaNames_assembleA]; simp
    · left; rw [graphMetaNames_assembleA]; simp
    · left; rw [graphMetaNames_assembleA]; simp
    · left; rw [graphMetaNames_assembleA]; simp
    · right; rfl
    · left; rw [graphMetaNames_assembleA]; simp
    · left
      rw [graphMetaNames_assembleA]
      simp only [List.mem_append, List.mem_cons, List.mem_singleton, List.not_mem_nil,
        or_false, List.mem_map, List.mem_range]
      exact Or.inl (Or.inl (Or.inl (Or.inl (Or.inr ⟨i, hi, rfl⟩))))
    · left
      have hi3 : i < min cidrs.length 3 := by omega
      rw [graphMetaNames_assembleA]
      simp only [List.mem_append, List.mem_cons, List.mem_singleton, List.not_mem_nil,
        or_false, List.mem_map, List.mem_range]
      exact Or.inl (Or.inl (Or.inl (Or.inl (Or.inr ⟨i, hi3, rfl⟩))))

def defaultGraphA : Graph := (runFunctionA defaultConfigA).toOption.getD []

set_option maxRecDepth 8000 in
theorem claim_C1_counterexample :
    runFunctionA defaultConfigA = .ok defaultGraphA ∧
      "vectordb-password-dev" ∈ graphRefNames defaultGraphA ∧
      "vectordb-password-dev" ∉ graphMetaNames defaultGraphA :=
  ⟨rfl, by decide, by decide⟩

set_option maxRecDepth 8000 in
/-- Witness for C1 (amended) at the default configuration, instantiated
at the subnet reference carried by the subnet group. -/
theorem claim_C1_witness :
    "vectordb-subnet-2-dev" ∈ graphMetaNames defaultGraphA ∨
      "vectordb-subnet-2-dev" = passwordNameA defaultConfigA :=
  claim_C1_reference_closure defaultConfigA defaultGraphA ⟨168427520, 16⟩ rfl
    (by decide) (by decide) (by decide) "vectordb-subnet-2-dev" (by decide)

/-- C9: whenever the configured instance count is greater than 1, the
database instance builder assigns the i-th generated instance the
0-based promotion tier i. -/
theorem claim_C9_promotion_tiers (c : ConfigA) (i : Nat)
    (h1 : 1 < c.instance_count) (hi : i < c.instance_count) :
    ((create_aurora_instances c)[i]?).map
        (fun v => v.getPath ["spec", "forProvider", "promotionTier"]) =
      some (some (Value.vnum i)) := by
  unfold create_aurora_instances
  rw [List.getElem?_map, List.getElem?_range hi]
  rfl

/-- Witness for C9 at the default configuration (2 instances), index 1. -/
theorem claim_C9_witness :
    1 < defaultConfigA.instance_count ∧ 1 < defaultConfigA.instance_count ∧
      ((create_aurora_instances defaultConfigA)[1]?).map
          (fun v => v.getPath ["spec", "forProvider", "promotionTier"]) =
        some (some (Value.vnum 1)) :=
  ⟨by decide, by decide,
    claim_C9_promotion_tiers defaultConfigA 1 (by decide) (by decide)⟩

/-- Whether a manifest declares `kind: Subnet`. -/
def isSubnetKind (v : Value) : Bool :=
  match v.get "kind" with
  | some (Value.vstr s) => s == "Subnet"
  | _ => false

theorem isSubnetKind_subnet_manifest (c : ConfigA) (i : Nat) (cidr az : String) :
    isSubnetKind (subnet_manifest c i cidr az) = true := rfl

theorem filter_isSubnetKind_assembleA (c : ConfigA) (cidrs : List String) :
    (assembleA c cidrs).filter (fun p => isSubnetKind p.2) =
      (create_database_subnets c cidrs).enum.map fun p =>
        ("subnet_" ++ toString p.1, p.2) := by
  unfold assembleA
  simp only [List.filter_append]
  rw [show List.filter (fun p => isSubnetKind p.2)
      [("vpc", create_vpc c), ("internet_gateway", create_internet_gateway c)] = [] from rfl]
  rw [show List.filter (fun p => isSubnetKind p.2)
      [("route_table", create_database_route_table c),
       ("igw_route", create_igw_route c)] = [] from rfl]
  rw [show List.filter (fun p => isSubnetKind p.2)
      [("security_group", create_database_security_group c),
       ("security_group_rule", create_security_group_rule c),
       ("egress_rule", create_egress_rule c),
       ("subnet_group", create_subnet_group c),
       ("monitoring_role", create_monitoring_role c),
       ("aurora_cluster", create_aurora_cluster c)] = [] from rfl]
  have hsub : List.filter (fun p => isSubnetKind p.2)
      ((create_database_subnets c cidrs).enum.map fun p =>
        ("subnet_" ++ toString p.1, p.2)) =
      (create_database_subnets c cidrs).enum.map fun p =>
        ("subnet_" ++ toString p.1, p.2) := by
    rw [List.filter_eq_self]
    intro a ha
    rw [List.mem_map] at ha
    obtain ⟨q, hq, rfl⟩ := ha
    have : q.2 ∈ create_database_subnets c cidrs := by
      have := List.mem_map_of_mem Prod.snd hq
      rwa [List.enum_map_snd] at this
    unfold create_database_subnets at this
    rw [List.mem_map] at this
    obtain ⟨z, _, hz⟩ := this
    rw [show ("subnet_" ++ toString q.1, q.2).2 = q.2 from rfl, ← hz]
    exact isSubnetKind_subnet_manifest c z.1 z.2.1 z.2.2
  have hassoc : List.filter (fun p => isSubnetKind p.2)
      ((create_route_table_associations c
          (create_database_subnets c cidrs).length).enum.map fun p =>
        ("route_table_association_" ++ toString p.1, p.2)) = [] := by
    rw [List.filter_eq_nil_iff]
    intro a ha
    rw [List.mem_map] at ha
    obtain ⟨q, hq, rfl⟩ := ha
    have hmem : q.2 ∈ create_route_table_associations c
        (create_database_subnets c cidrs).length := by
      have := List.mem_map_of_mem Prod.snd hq
      rwa [List.enum_map_snd] at this
    unfold create_route_table_associations at hmem
    rw [List.mem_map] at hmem
    obtain ⟨i, _, hi⟩ := hmem
    rw [show ("route_table_association_" ++ toString q.1, q.2).2 = q.2 from rfl, ← hi]
    rw [show isSubnetKind (association_manifest c i) = false from rfl]
    simp
  have hinst : List.filter (fun p => isSubnetKind p.2)
      ((create_aurora_instances c).enum.map fun p =>
        ("aurora_instance_" ++ toString (p.1 + 1), p.2)) = [] := by
    rw [List.filter_eq_nil_iff]
    intro a ha
    rw [List.mem_map] at ha
    obtain ⟨q, hq, rfl⟩ := ha
    have hmem : q.2 ∈ create_aurora_instances c := by
      have := List.mem_map_of_mem Prod.snd hq
      rwa [List.enum_map_snd] at this
    unfold create_aurora_instances at hmem
    rw [List.mem_map] at hmem
    obtain ⟨i, _, hi⟩ := hmem
    rw [show ("aurora_instance_" ++ toString (q.1 + 1), q.2).2 = q.2 from rfl, ← hi]
    rw [show isSubnetKind (aurora_instance_manifest c i) = false from rfl]
    simp
  rw [hsub, hassoc, hinst]
  simp

/-- C10 (amended): in every graph produced from a configuration with
more than 3 availability zones whose VPC CIDR parses to a network of
mask length at most 24, exactly 3 Subnet descriptors exist (named subnet
0, 1 and 2 — the zip with the fixed suffixes a, b, c truncates), while
the subnet group descriptor in the same graph still references one
subnet name per index below `az_count`, so subnet names numbered 3 and
above are referenced but never created.  With a /32 parent no subnet
CIDRs are allocated at all, so zero Subnet descriptors are created while
the subnet group still references `az_count` names. -/
theorem claim_C10_subnet_truncation (c : ConfigA) (g : Graph) (net : IPv4Net)
    (hok : runFunctionA c = .ok g) (hp : parseCidr c.vpc_cidr = some net)
    (h24 : net.plen ≤ 24) (h3 : 3 < c.az_count) :
    ((g.filter fun p => isSubnetKind p.2).length = 3) ∧
    graphMetaNames (g.filter fun p => isSubnetKind p.2) =
      (List.range 3).map (subnetNameA c) ∧
    ("subnet_group", create_subnet_group c) ∈ g ∧
    refNames (create_subnet_group c) = (List.range c.az_count).map (subnetNameA c) := by
  unfold runFunctionA at hok
  cases hcalc : calculate_subnet_cidrs c.vpc_cidr c.az_count with
  | error e => rw [hcalc] at hok; cases hok
  | ok cidrs =>
    rw [hcalc] at hok
    obtain rfl := Except.ok.inj hok
    have hlen : cidrs.length = min c.az_count 250 :=
      calculate_subnet_cidrs_ok_length _ _ _ net hp (by omega) hcalc
    have hmin : min cidrs.length 3 = 3 := by omega
    refine ⟨?_, ?_, ?_, refNames_create_subnet_group c⟩
    · rw [filter_isSubnetKind_assembleA]
      simp [create_database_subnets_length, hmin]
    · rw [filter_isSubnetKind_assembleA]
      rw [graphMetaNames_enum_map (create_database_subnets c cidrs) _ (fun p => rfl)]
      rw [filterMap_metaName_subnets, hmin]
    · unfold assembleA
      simp

/-- The default configuration with 4 availability zones. -/
def configA4 : ConfigA := { defaultConfigA with az_count := 4 }

/-- The graph generated for `configA4`. -/
def graphA4 : Graph := (runFunctionA configA4).toOption.getD []

set_option maxRecDepth 8000 in
/-- Witness for C10 (amended) at the default configuration with 4
zones. -/
theorem claim_C10_witness :
    ((graphA4.filter fun p => isSubnetKind p.2).length = 3) ∧
    graphMetaNames (graphA4.filter fun p => isSubnetKind p.2) =
      (List.range 3).map (subnetNameA configA4) ∧
    ("subnet_group", create_subnet_group configA4) ∈ graphA4 ∧
    refNames (create_subnet_group configA4) =
      (List.range configA4.az_count).map (subnetNameA configA4) :=
  claim_C10_subnet_truncation configA4 graphA4 ⟨168427520, 16⟩ rfl (by decide)
    (by decide) (by decide)

/-- A configuration whose VPC CIDR is a bare host address: it parses to
a /32 network, for which the source allocates no subnet CIDRs. -/
def configA32 : ConfigA := { defaultConfigA with vpc_cidr := "10.0.0.1" }

/-- The graph generated for `configA32` (3 zones, /32 parent). -/
def graphA32 : Graph := (runFunctionA configA32).toOption.getD []

/-- A /32 VPC CIDR with 4 availability zones. -/
def configA32az4 : ConfigA :=
  { defaultConfigA with vpc_cidr := "10.0.0.1", az_count := 4 }

/-- The graph generated for `configA32az4`. -/
def graphA32az4 : Graph := (runFunctionA configA32az4).toOption.getD []

set_option maxRecDepth 8000 in
/-- Counterexample for C10 as stated: with a /32 VPC CIDR (a bare host
address) and 4 availability zones, generation succeeds but allocates no
subnet CIDRs, so the graph contains zero Subnet descriptors — not
exactly 3 — while the subnet group still references 4 subnet names. -/
theorem claim_C10_counterexample :
    runFunctionA configA32az4 = .ok graphA32az4 ∧
      (graphA32az4.filter fun p => isSubnetKind p.2).length = 0 ∧
      graphA32az4.lookup "subnet_group" = some (create_subnet_group configA32az4) ∧
      refNames (create_subnet_group configA32az4) =
        (List.range 4).map (subnetNameA configA32az4) :=
  ⟨rfl, rfl, rfl, rfl⟩

set_option maxRecDepth 8000 in
/-- With a /32 parent even the subnet references of the subnet group
dangle: the generated graph references subnet 0 but creates no subnet
descriptor, which is why C1 requires the parent mask length to be at
most 24. -/
theorem slash32_subnet_refs_dangle :
    runFunctionA configA32 = .ok graphA32 ∧
      "vectordb-subnet-0-dev" ∈ graphRefNames graphA32 ∧
      "vectordb-subnet-0-dev" ∉ graphMetaNames graphA32 :=
  ⟨rfl, by decide, by decide⟩

/-- The default configuration with 1 availability zone and 0 instances. -/
def configA1 : ConfigA := { defaultConfigA with az_count := 1, instance_count := 0 }

/-- Counterexample for C7 as stated: with a zone count of 1 and an
instance count of 0 the generation still succeeds — no ValidationError
is raised and a full graph is produced, with no instance descriptors. -/
theorem claim_C7_counterexample :
    (runFunctionA configA1).isOk = true ∧ create_aurora_instances configA1 = [] :=
  ⟨rfl, rfl⟩

/-- C7 (amended): neither `_extract_config` nor the builders validate the
zone count or the instance count: for every configuration with zone count
below 2 and instance count below 1 whose VPC CIDR parses to a network
with at most 24 mask bits, generation succeeds anyway and the instance
builder returns an empty list instead of failing. -/
theorem claim_C7_no_validation (c : ConfigA) (net : IPv4Net)
    (h2 : c.az_count < 2) (h1 : c.instance_count < 1)
    (hp : parseCidr c.vpc_cidr = some net) (h8 : net.plen + 8 ≤ 32) :
    (runFunctionA c).isOk = true ∧ create_aurora_instances c = [] := by
  constructor
  · have halloc : ∃ blocks, allocateSubnets net c.az_count = .ok blocks := by
      unfold allocateSubnets
      by_cases h0 : c.az_count = 0
      · rw [if_pos h0]
        exact ⟨[], rfl⟩
      · rw [if_neg h0, if_neg (by omega : ¬ net.plen = 32), if_neg (by omega)]
        exact ⟨_, rfl⟩
    obtain ⟨blocks, hb⟩ := halloc
    have hcalc : calculate_subnet_cidrs c.vpc_cidr c.az_count =
        .ok (blocks.map netToString) := by
      unfold calculate_subnet_cidrs
      rw [hp]
      dsimp only
      rw [hb]
      rfl
    unfold runFunctionA
    rw [hcalc]
    rfl
  · unfold create_aurora_instances
    rw [show c.instance_count = 0 by omega]
    rfl

/-- Witness for C7 (amended) at 1 zone and 0 instances. -/
theorem claim_C7_witness :
    (runFunctionA configA1).isOk = true ∧ create_aurora_instances configA1 = [] :=
  claim_C7_no_validation configA1 ⟨168427520, 16⟩ (by decide) (by decide) (by decide)
    (by decide)

/-! ## Variant B: `src/function-vectordb/function/fn.py`

`FunctionRunner.RunFunction` (lines 31-714): a single function that reads
the composite spec (a loosely typed dictionary, modelled as an
association list of `Value`), extracts `location` (raising `KeyError`
when absent) and ten defaulted fields, and assembles a fixed set of
label-selector-linked manifests with literal placeholder values. -/

/-- `_get_availability_zone` (lines 17-29): the region mapping returns
`f"{region}{az_suffix}"` for every region it lists, and the same string
is the `dict.get` default, so for every string region the result is the
region followed by the suffix.  A non-string location would be formatted
by the f-string; that case is left unmodelled (no claim exercises it)
and the value is passed through unchanged. -/
def get_availability_zone (region : Value) (az_suffix : String) : Value :=
  match region with
  | Value.vstr s => Value.vstr (s ++ az_suffix)
  | v => v

/-- Python truthiness of a JSON value, as `if generate_password:` uses
it: false, zero, the empty string, the empty list and the empty dict are
falsy, everything else is truthy. -/
def truthy : Value → Bool
  | Value.vbool b => b
  | Value.vnum q => q != 0
  | Value.vstr s => s != ""
  | Value.varr vs => !vs.isEmpty
  | Value.vobj fs => !fs.isEmpty

/-- `spec_dict.get(key, default)`. -/
def specGet (spec : List (String × Value)) (k : String) (d : Value) : Value :=
  (spec.lookup k).getD d

/-- The IAM trust policy literal of resource 11 (lines 486-497), a
triple-quoted string with its source indentation. -/
def monitoringTrustPolicyB : String :=
  "\x7b\n                            \"Version\": \"2012-10-17\",\n                            \"Statement\": [\n                                \x7b\n                                    \"Effect\": \"Allow\",\n                                    \"Principal\": \x7b\n                                        \"Service\": \"monitoring.rds.amazonaws.com\"\n                                    \x7d,\n                                    \"Action\": \"sts:AssumeRole\"\n                                \x7d\n                            ]\n                        \x7d"

/-- The desired-resources map that `RunFunction` of variant B assembles
(lines 61-707), given the extracted configuration values, in source
order.  The `random-password` generator descriptor (lines 580-603) is
present exactly when `generate_password` is truthy. -/
def assembleB (location engine_version min_capacity max_capacity database_name
    master_username backup_retention_period backup_window maintenance_window
    deletion_protection : Value) (generate_password : Bool) : Graph :=
  [("vpc", .vobj [
    ("apiVersion", .vstr "vpc.aws.upbound.io/v1beta1"),
    ("kind", .vstr "VPC"),
    ("metadata", .vobj [
      ("annotations", .vobj [("crossplane.io/external-name", .vstr "vector-db-vpc")])]),
    ("spec", .vobj [
      ("forProvider", .vobj [
        ("region", location),
        ("cidrBlock", .vstr "10.0.0.0/16"),
        ("enableDnsHostnames", .vbool true),
        ("enableDnsSupport", .vbool true),
        ("tags", .vobj [("Name", .vstr "vector-db-vpc")])]),
      ("providerConfigRef", .vobj [("name", .vstr "creds-provider")])])]),
   ("internet-gateway", .vobj [
    ("apiVersion", .vstr "vpc.aws.upbound.io/v1beta1"),
    ("kind", .vstr "InternetGateway"),
    ("metadata", .vobj [
      ("annotations", .vobj [("crossplane.io/external-name", .vstr "vector-db-igw")])]),
    ("spec", .vobj [
      ("forProvider", .vobj [
        ("region", location),
        ("vpcIdSelector", .vobj [("matchControllerRef", .vbool true)]),
        ("tags", .vobj [("Name", .vstr "vector-db-igw")])]),
      ("providerConfigRef", .vobj [("name", .vstr "creds-provider")])])])] ++
  ((List.range 2).map fun i =>
    ("public-subnet-" ++ toString (i + 1), Value.vobj [
      ("apiVersion", .vstr "vpc.aws.upbound.io/v1beta1"),
      ("kind", .vstr "Subnet"),
      ("metadata", .vobj [
        ("annotations", .vobj [
          ("crossplane.io/external-name",
            .vstr ("vector-db-public-subnet-" ++ toString (i + 1)))])]),
      ("spec", .vobj [
        ("forProvider", .vobj [
          ("region", location),
          ("vpcIdSelector", .vobj [("matchControllerRef", .vbool true)]),
          ("cidrBlock", .vstr ("10.0." ++ toString (i + 1) ++ ".0/24")),
          ("availabilityZone",
            get_availability_zone location (if i = 0 then "a" else "b")),
          ("mapPublicIpOnLaunch", .vbool true),
          ("tags", .vobj [
            ("Name", .vstr ("vector-db-public-subnet-" ++ toString (i + 1)))])]),
        ("providerConfigRef", .vobj [("name", .vstr "creds-provider")])])])) ++
  ((List.range 2).map fun i =>
    ("private-subnet-" ++ toString (i + 1), Value.vobj [
      ("apiVersion", .vstr "vpc.aws.upbound.io/v1beta1"),
      ("kind", .vstr "Subnet"),
      ("metadata", .vobj [
        ("annotations", .vobj [
          ("crossplane.io/external-name",
            .vstr ("vector-db-private-subnet-" ++ toString (i + 1)))])]),
      ("spec", .vobj [
        ("forProvider", .vobj [
          ("region", location),
          ("vpcIdSelector", .vobj [("matchControllerRef", .vbool true)]),
          ("cidrBlock", .vstr ("10.0." ++ toString (i + 3) ++ ".0/24")),
          ("availabilityZone",
            get_availability_zone location (if i = 0 then "a" else "b")),
          ("tags", .vobj [
            ("Name", .vstr ("vector-db-private-subnet-" ++ toString (i + 1)))])]),
        ("providerConfigRef", .vobj [("name", .vstr "creds-provider")])])])) ++
  ((List.range 2).map fun i =>
    ("database-subnet-" ++ toString (i + 1), Value.vobj [
      ("apiVersion", .vstr "vpc.aws.upbound.io/v1beta1"),
      ("kind", .vstr "Subnet"),
      ("metadata", .vobj [
        ("annotations", .vobj [
          ("crossplane.io/external-name",
            .vstr ("vector-db-database-subnet-" ++ toString (i + 1)))])]),
      ("spec", .vobj [
        ("forProvider", .vobj [
          ("region", location),
          ("vpcIdSelector", .vobj [("matchControllerRef", .vbool true)]),
          ("cidrBlock", .vstr ("10.0." ++ toString (i + 5) ++ ".0/24")),
          ("availabilityZone",
            get_availability_zone location (if i = 0 then "a" else "b")),
          ("tags", .vobj [
            ("Name", .vstr ("vector-db-database-subnet-" ++ toString (i + 1)))])]),
        ("providerConfigRef", .vobj [("name", .vstr "creds-provider")])])])) ++
  [("database-subnet-group", .vobj [
    ("apiVersion", .vstr "rds.aws.upbound.io/v1beta1"),
    ("kind", .vstr "SubnetGroup"),
    ("metadata", .vobj [
      ("annotations", .vobj [
        ("crossplane.io/external-name", .vstr "vector-db-subnet-group")])]),
    ("spec", .vobj [
      ("forProvider", .vobj [
        ("region", location),
        ("subnetIds", .varr [.vstr "dummy-subnet-1", .vstr "dummy-subnet-2"]),
        ("tags", .vobj [("Name", .vstr "vector-db-subnet-group")])]),
      ("providerConfigRef", .vobj [("name", .vstr "creds-provider")])])]),
   ("public-route-table", .vobj [
    ("apiVersion", .vstr "vpc.aws.upbound.io/v1beta1"),
    ("kind", .vstr "RouteTable"),
    ("metadata", .vobj [
      ("annotations", .vobj [
        ("crossplane.io/external-name", .vstr "vector-db-public-rt")])]),
    ("spec", .vobj [
      ("forProvider", .vobj [
        ("region", location),
        ("vpcIdSelector", .vobj [("matchControllerRef", .vbool true)]),
        ("tags", .vobj [("Name", .vstr "vector-db-public-rt")])]),
      ("providerConfigRef", .vobj [("name", .vstr "creds-provider")])])]),
   ("database-route-table", .vobj [
    ("apiVersion", .vstr "vpc.aws.upbound.io/v1beta1"),
    ("kind", .vstr "RouteTable"),
    ("metadata", .vobj [
      ("annotations", .vobj [
        ("crossplane.io/external-name", .vstr "vector-db-database-rt")])]),
    ("spec", .vobj [
      ("forProvider", .vobj [
        ("region", location),
        ("vpcIdSelector", .vobj [("matchControllerRef", .vbool true)]),
        ("tags", .vobj [("Name", .vstr "vector-db-database-rt")])]),
      ("providerConfigRef", .vobj [("name", .vstr "creds-provider")])])]),
   ("public-route", .vobj [
    ("apiVersion", .vstr "vpc.aws.upbound.io/v1beta1"),
    ("kind", .vstr "Route"),
    ("metadata", .vobj [
      ("annotations", .vobj [
        ("crossplane.io/external-name", .vstr "vector-db-public-route")])]),
    ("spec", .vobj [
      ("forProvider", .vobj [
        ("region", location),
        ("routeTableIdSelector", .vobj [("matchControllerRef", .vbool true)]),
        ("destinationCidrBlock", .vstr "0.0.0.0/0"),
        ("gatewayIdSelector", .vobj [("matchControllerRef", .vbool true)])]),
      ("providerConfigRef", .vobj [("name", .vstr "creds-provider")])])]),
   ("database-route", .vobj [
    ("apiVersion", .vstr "vpc.aws.upbound.io/v1beta1"),
    ("kind", .vstr "Route"),
    ("metadata", .vobj [
      ("annotations", .vobj [
        ("crossplane.io/external-name", .vstr "vector-db-database-route")])]),
    ("spec", .vobj [
      ("forProvider", .vobj [
        ("region", location),
        ("routeTableIdSelector", .vobj [("matchControllerRef", .vbool true)]),
        ("destinationCidrBlock", .vstr "0.0.0.0/0"),
        ("gatewayIdSelector", .vobj [("matchControllerRef", .vbool true)])]),
      ("providerConfigRef", .vobj [("name", .vstr "creds-provider")])])])] ++
  ((List.range' 1 2).map fun i =>
    ("public-rt-assoc-" ++ toString i, Value.vobj [
      ("apiVersion", .vstr "vpc.aws.upbound.io/v1beta1"),
      ("kind", .vstr "RouteTableAssociation"),
      ("metadata", .vobj [
        ("annotations", .vobj [
          ("crossplane.io/external-name",
            .vstr ("vector-db-public-rt-assoc-" ++ toString i))])]),
      ("spec", .vobj [
        ("forProvider", .vobj [
          ("region", location),
          ("subnetIdSelector", .vobj [("matchControllerRef", .vbool true)]),
          ("routeTableIdSelector", .vobj [("matchControllerRef", .vbool true)])]),
        ("providerConfigRef", .vobj [("name", .vstr "creds-provider")])])])) ++
  ((List.range' 1 2).map fun i =>
    ("database-rt-assoc-" ++ toString i, Value.vobj [
      ("apiVersion", .vstr "vpc.aws.upbound.io/v1beta1"),
      ("kind", .vstr "RouteTableAssociation"),
      ("metadata", .vobj [
        ("annotations", .vobj [
          ("crossplane.io/external-name",
            .vstr ("vector-db-database-rt-assoc-" ++ toString i))])]),
      ("spec", .vobj [
        ("forProvider", .vobj [
          ("region", location),
          ("subnetIdSelector", .vobj [("matchControllerRef", .vbool true)]),
          ("routeTableIdSelector", .vobj [("matchControllerRef", .vbool true)])]),
        ("providerConfigRef", .vobj [("name", .vstr "creds-provider")])])])) ++
  [("aurora-security-group", .vobj [
    ("apiVersion", .vstr "vpc.aws.upbound.io/v1beta1"),
    ("kind", .vstr "SecurityGroup"),
    ("metadata", .vobj [
      ("annotations", .vobj [
        ("crossplane.io/external-name", .vstr "vector-db-aurora-sg")])]),
    ("spec", .vobj [
      ("forProvider", .vobj [
        ("region", location),
        ("vpcIdSelector", .vobj [("matchControllerRef", .vbool true)]),
        ("description", .vstr "Security group for Aurora PostgreSQL cluster"),
        ("ingress", .varr [.vobj [
          ("description", .vstr "PostgreSQL access"),
          ("fromPort", .vnum 5432),
          ("toPort", .vnum 5432),
          ("protocol", .vstr "tcp"),
          ("cidrBlocks", .varr [.vstr "0.0.0.0/0"])]]),
        ("egress", .varr [.vobj [
          ("description", .vstr "All outbound traffic"),
          ("fromPort", .vnum 0),
          ("toPort", .vnum 0),
          ("protocol", .vstr "-1"),
          ("cidrBlocks", .varr [.vstr "0.0.0.0/0"])]]),
        ("tags", .vobj [("Name", .vstr "vector-db-aurora-sg")])]),
      ("providerConfigRef", .vobj [("name", .vstr "creds-provider")])])]),
   ("rds-monitoring-role", .vobj [
    ("apiVersion", .vstr "iam.aws.upbound.io/v1beta1"),
    ("kind", .vstr "Role"),
    ("metadata", .vobj [
      ("annotations", .vobj [
        ("crossplane.io/external-name", .vstr "vector-db-monitoring-role")])]),
    ("spec", .vobj [
      ("forProvider", .vobj [
        ("region", location),
        ("assumeRolePolicy", .vstr monitoringTrustPolicyB),
        ("managedPolicyArns", .varr [
          .vstr "arn:aws:iam::aws:policy/service-role/AmazonRDSEnhancedMonitoringRole"]),
        ("tags", .vobj [("Name", .vstr "vector-db-monitoring-role")])]),
      ("providerConfigRef", .vobj [("name", .vstr "creds-provider")])])]),
   ("parameter-group", .vobj [
    ("apiVersion", .vstr "rds.aws.upbound.io/v1beta1"),
    ("kind", .vstr "ParameterGroup"),
    ("metadata", .vobj [
      ("annotations", .vobj [
        ("crossplane.io/external-name", .vstr "vector-db-parameter-group")])]),
    ("spec", .vobj [
      ("forProvider", .vobj [
        ("region", location),
        ("family", .vstr "aurora-postgresql16"),
        ("description", .vstr "Parameter group for vector extension"),
        ("parameter", .varr [.vobj [
          ("name", .vstr "shared_preload_libraries"),
          ("value", .vstr "vector")]]),
        ("tags", .vobj [("Name", .vstr "vector-db-parameter-group")])]),
      ("providerConfigRef", .vobj [("name", .vstr "creds-provider")])])]),
   ("cluster-parameter-group", .vobj [
    ("apiVersion", .vstr "rds.aws.upbound.io/v1beta1"),
    ("kind", .vstr "ClusterParameterGroup"),
    ("metadata", .vobj [
      ("annotations", .vobj [
        ("crossplane.io/external-name", .vstr "vector-db-cluster-parameter-group")])]),
    ("spec", .vobj [
      ("forProvider", .vobj [
        ("region", location),
        ("family", .vstr "aurora-postgresql16"),
        ("description", .vstr "Cluster parameter group for vector extension"),
        ("parameter", .varr [.vobj [
          ("name", .vstr "shared_preload_libraries"),
          ("value", .vstr "vector")]]),
        ("tags", .vobj [("Name", .vstr "vector-db-cluster-parameter-group")])]),
      ("providerConfigRef", .vobj [("name", .vstr "creds-provider")])])])] ++
  (if generate_password then
    [("random-password", .vobj [
      ("apiVersion", .vstr "random.upbound.io/v1beta1"),
      ("kind", .vstr "Password"),
      ("metadata", .vobj [
        ("annotations", .vobj [
          ("crossplane.io/external-name", .vstr "vector-db-password")])]),
      ("spec", .vobj [
        ("forProvider", .vobj [
          ("length", .vnum 16),
          ("special", .vbool true),
          ("overrideSpecial", .vstr "!#$%&*()-_=+[]\x7b\x7d<>:?")]),
        ("providerConfigRef", .vobj [("name", .vstr "creds-provider")])])])]
  else []) ++
  [("aurora-cluster", .vobj [
    ("apiVersion", .vstr "rds.aws.upbound.io/v1beta1"),
    ("kind", .vstr "Cluster"),
    ("metadata", .vobj [
      ("annotations", .vobj [
        ("crossplane.io/external-name", .vstr "vector-db-cluster")])]),
    ("spec", .vobj [
      ("forProvider", .vobj [
        ("region", location),
        ("engine", .vstr "aurora-postgresql"),
        ("engineVersion", engine_version),
        ("masterUsername", master_username),
        ("masterPassword", .vstr "dummy-password"),
        ("skipFinalSnapshot", .vbool false),
        ("deletionProtection", deletion_protection),
        ("storageEncrypted", .vbool true),
        ("copyTagsToSnapshot", .vbool true),
        ("backupRetentionPeriod", backup_retention_period),
        ("preferredBackupWindow", backup_window),
        ("preferredMaintenanceWindow", maintenance_window),
        ("monitoringInterval", .vnum 60),
        ("monitoringRoleArn", .vstr "dummy-monitoring-role"),
        ("performanceInsightsEnabled", .vbool true),
        ("performanceInsightsRetentionPeriod", .vnum 7),
        ("dbClusterParameterGroupName", .vstr "dummy-cluster-parameter-group"),
        ("vpcSecurityGroupIds", .varr [.vstr "dummy-sg"]),
        ("dbSubnetGroupName", .vstr "dummy-subnet-group"),
        ("tags", .vobj [("Name", .vstr "vector-db-cluster")])]),
      ("providerConfigRef", .vobj [("name", .vstr "creds-provider")])])]),
   ("aurora-instance", .vobj [
    ("apiVersion", .vstr "rds.aws.upbound.io/v1beta1"),
    ("kind", .vstr "Instance"),
    ("metadata", .vobj [
      ("annotations", .vobj [
        ("crossplane.io/external-name", .vstr "vector-db-instance")])]),
    ("spec", .vobj [
      ("forProvider", .vobj [
        ("region", location),
        ("engine", .vstr "aurora-postgresql"),
        ("instanceClass", .vstr "db.serverless"),
        ("clusterIdentifier", .vstr "dummy-cluster"),
        ("autoMinorVersionUpgrade", .vbool true),
        ("dbParameterGroupName", .vstr "dummy-parameter-group"),
        ("monitoringInterval", .vnum 60),
        ("monitoringRoleArn", .vstr "dummy-monitoring-role"),
        ("performanceInsightsEnabled", .vbool true),
        ("performanceInsightsRetentionPeriod", .vnum 7),
        ("serverlessV2ScalingConfiguration", .vobj [
          ("minCapacity", min_capacity),
          ("maxCapacity", max_capacity)]),
        ("tags", .vobj [("Name", .vstr "vector-db-instance")])]),
      ("providerConfigRef", .vobj [("name", .vstr "creds-provider")])])]),
   ("db-secret", .vobj [
    ("apiVersion", .vstr "v1"),
    ("kind", .vstr "Secret"),
    ("metadata", .vobj [
      ("name", .vstr "vector-db-secret"),
      ("annotations", .vobj [
        ("crossplane.io/external-name", .vstr "vector-db-secret")])]),
    ("type", .vstr "Opaque"),
    ("stringData", .vobj [
      ("username", master_username),
      ("password", .vstr "dummy-password"),
      ("endpoint", .vstr "dummy-endpoint"),
      ("port", .vstr "5432"),
      ("database", database_name)])])]

/-- `RunFunction` of variant B (lines 31-714): `spec_dict["location"]`
raises `KeyError` when the key is absent; every other field falls back
to its default via `spec_dict.get`. -/
def runFunctionB (spec : List (String × Value)) : Except PyErr Graph :=
  match spec.lookup "location" with
  | none => .error .keyError
  | some location =>
    .ok (assembleB location
      (specGet spec "engineVersion" (.vstr "16.6"))
      (specGet spec "minCapacity" (.vnum 2))
      (specGet spec "maxCapacity" (.vnum 16))
      (specGet spec "databaseName" (.vstr "vectordb"))
      (specGet spec "masterUsername" (.vstr "postgres"))
      (specGet spec "backupRetentionPeriod" (.vnum 7))
      (specGet spec "backupWindow" (.vstr "06:42-07:12"))
      (specGet spec "maintenanceWindow" (.vstr "wed:04:35-wed:05:05"))
      (specGet spec "deletionProtection" (.vbool true))
      (truthy (specGet spec "generatePassword" (.vbool true))))

/-- Payload lookup inside a named resource of a graph. -/
def resourcePath (g : Graph) (name : String) (path : List String) : Option Value :=
  (g.lookup name).bind fun v => v.getPath path

/-- C4: determinism — both generators are pure functions of the request
document: two invocations on equal inputs produce identical descriptor
graphs.  Equality is exact, including every credential field: variant A
sets `autoGeneratePassword` and a secret reference, variant B a fixed
placeholder string, so nothing is randomized during generation. -/
theorem claim_C4_determinism (c1 c2 : ConfigA) (s1 s2 : List (String × Value))
    (hc : c1 = c2) (hs : s1 = s2) :
    runFunctionA c1 = runFunctionA c2 ∧ runFunctionB s1 = runFunctionB s2 := by
  subst hc
  subst hs
  exact ⟨rfl, rfl⟩

/-- Witness for C4 at the default configuration of each variant. -/
theorem claim_C4_witness :
    runFunctionA defaultConfigA = runFunctionA defaultConfigA ∧
      runFunctionB [("location", Value.vstr "us-west-2")] =
        runFunctionB [("location", Value.vstr "us-west-2")] :=
  claim_C4_determinism defaultConfigA defaultConfigA
    [("location", Value.vstr "us-west-2")] [("location", Value.vstr "us-west-2")] rfl rfl

/-- The variant B graph for a spec that only sets the location. -/
def graphB0 : Graph :=
  (runFunctionB [("location", Value.vstr "us-west-2")]).toOption.getD []

/-- C5 (amended): for an input document whose spec sets only the
location, the aurora-cluster descriptor carries engine version 16.6,
master username postgres, backup retention 7, backup window 06:42-07:12,
maintenance window wed:04:35-wed:05:05 and deletion protection true, and
the capacity bounds minCapacity 2 / maxCapacity 16 sit on the
aurora-instance descriptor (its serverlessV2ScalingConfiguration), not
on the cluster descriptor, which has no capacity fields at all. -/
theorem claim_C5_defaulting (r : String) (g : Graph)
    (hok : runFunctionB [("location", Value.vstr r)] = .ok g) :
    resourcePath g "aurora-cluster" ["spec", "forProvider", "engineVersion"] =
      some (.vstr "16.6") ∧
    resourcePath g "aurora-cluster" ["spec", "forProvider", "masterUsername"] =
      some (.vstr "postgres") ∧
    resourcePath g "aurora-cluster" ["spec", "forProvider", "backupRetentionPeriod"] =
      some (.vnum 7) ∧
    resourcePath g "aurora-cluster" ["spec", "forProvider", "preferredBackupWindow"] =
      some (.vstr "06:42-07:12") ∧
    resourcePath g "aurora-cluster"
      ["spec", "forProvider", "preferredMaintenanceWindow"] =
      some (.vstr "wed:04:35-wed:05:05") ∧
    resourcePath g "aurora-cluster" ["spec", "forProvider", "deletionProtection"] =
      some (.vbool true) ∧
    resourcePath g "aurora-instance"
      ["spec", "forProvider", "serverlessV2ScalingConfiguration", "minCapacity"] =
      some (.vnum 2) ∧
    resourcePath g "aurora-instance"
      ["spec", "forProvider", "serverlessV2ScalingConfiguration", "maxCapacity"] =
      some (.vnum 16) ∧
    (g.lookup "aurora-cluster").map (fun v => hasKey v "minCapacity") = some false ∧
    (g.lookup "aurora-cluster").map (fun v => hasKey v "maxCapacity") = some false := by
  obtain rfl := Except.ok.inj hok
  exact ⟨rfl, rfl, rfl, rfl, rfl, rfl, rfl, rfl, rfl, rfl⟩

/-- Witness for C5 (amended) at location us-west-2. -/
theorem claim_C5_witness :
    resourcePath graphB0 "aurora-cluster" ["spec", "forProvider", "engineVersion"] =
      some (.vstr "16.6") ∧
    resourcePath graphB0 "aurora-cluster" ["spec", "forProvider", "masterUsername"] =
      some (.vstr "postgres") ∧
    resourcePath graphB0 "aurora-cluster"
      ["spec", "forProvider", "backupRetentionPeriod"] = some (.vnum 7) ∧
    resourcePath graphB0 "aurora-cluster"
      ["spec", "forProvider", "preferredBackupWindow"] = some (.vstr "06:42-07:12") ∧
    resourcePath graphB0 "aurora-cluster"
      ["spec", "forProvider", "preferredMaintenanceWindow"] =
      some (.vstr "wed:04:35-wed:05:05") ∧
    resourcePath graphB0 "aurora-cluster" ["spec", "forProvider", "deletionProtection"] =
      some (.vbool true) ∧
    resourcePath graphB0 "aurora-instance"
      ["spec", "forProvider", "serverlessV2ScalingConfiguration", "minCapacity"] =
      some (.vnum 2) ∧
    resourcePath graphB0 "aurora-instance"
      ["spec", "forProvider", "serverlessV2ScalingConfiguration", "maxCapacity"] =
      some (.vnum 16) ∧
    (graphB0.lookup "aurora-cluster").map (fun v => hasKey v "minCapacity") =
      some false ∧
    (graphB0.lookup "aurora-cluster").map (fun v => hasKey v "maxCapacity") =
      some false :=
  claim_C5_defaulting "us-west-2" graphB0 rfl

/-- Counterexample for C5 as stated: with only the location set, the
generated database cluster descriptor does not carry the capacity bounds
at all — no minCapacity or maxCapacity key occurs anywhere in its
payload (they sit on the aurora-instance descriptor instead). -/
theorem claim_C5_counterexample :
    runFunctionB [("location", Value.vstr "us-west-2")] = .ok graphB0 ∧
    (graphB0.lookup "aurora-cluster").map (fun v => hasKey v "minCapacity") =
      some false ∧
    (graphB0.lookup "aurora-cluster").map (fun v => hasKey v "maxCapacity") =
      some false :=
  ⟨rfl, rfl, rfl⟩

/-- C6 (amended): when credential auto-generation is enabled (the
default), a random-password generator descriptor is created, but the
database cluster descriptor embeds the literal placeholder value
dummy-password in its own masterPassword field, the db-secret descriptor
carries the same literal (the value is duplicated), and the cluster does
not reference a password secret (it has no masterPasswordSecretRef). -/
theorem claim_C6_credential_placeholders (r : String) (g : Graph)
    (hok : runFunctionB [("location", Value.vstr r)] = .ok g) :
    (g.lookup "random-password").isSome = true ∧
    resourcePath g "aurora-cluster" ["spec", "forProvider", "masterPassword"] =
      some (.vstr "dummy-password") ∧
    resourcePath g "db-secret" ["stringData", "password"] =
      some (.vstr "dummy-password") ∧
    (g.lookup "aurora-cluster").map (fun v => hasKey v "masterPasswordSecretRef") =
      some false := by
  obtain rfl := Except.ok.inj hok
  exact ⟨rfl, rfl, rfl, rfl⟩

/-- Witness for C6 (amended) at location us-west-2. -/
theorem claim_C6_witness :
    (graphB0.lookup "random-password").isSome = true ∧
    resourcePath graphB0 "aurora-cluster" ["spec", "forProvider", "masterPassword"] =
      some (.vstr "dummy-password") ∧
    resourcePath graphB0 "db-secret" ["stringData", "password"] =
      some (.vstr "dummy-password") ∧
    (graphB0.lookup "aurora-cluster").map
      (fun v => hasKey v "masterPasswordSecretRef") = some false :=
  claim_C6_credential_placeholders "us-west-2" graphB0 rfl

/-- Counterexample for C6 as stated: with credential auto-generation
enabled (location-only spec), the literal credential value
dummy-password is embedded in the database cluster payload itself and
duplicated in the db-secret descriptor, and the cluster descriptor holds
no reference to the secret. -/
theorem claim_C6_counterexample :
    runFunctionB [("location", Value.vstr "us-west-2")] = .ok graphB0 ∧
    resourcePath graphB0 "aurora-cluster" ["spec", "forProvider", "masterPassword"] =
      some (.vstr "dummy-password") ∧
    resourcePath graphB0 "db-secret" ["stringData", "password"] =
      some (.vstr "dummy-password") ∧
    (graphB0.lookup "aurora-cluster").map
      (fun v => hasKey v "masterPasswordSecretRef") = some false :=
  ⟨rfl, rfl, rfl, rfl⟩

/-- The default variant A configuration with an unparsable VPC CIDR. -/
def configABadCidr : ConfigA := { defaultConfigA with vpc_cidr := "not-a-cidr" }

/-- C8 (amended): failures are not surfaced as structured result entries
— neither variant ever emits one; instead the exception propagates to
the transport layer: a request document missing the required location
field raises KeyError (variant B), and an unparsable CIDR string raises
ValueError inside the CIDR allocator (variant A). -/
theorem claim_C8_exceptions :
    runFunctionB [] = Except.error PyErr.keyError ∧
      runFunctionA configABadCidr = Except.error PyErr.valueError :=
  ⟨rfl, rfl⟩

/-- Counterexample for C8 as stated: a request document missing the
required location field makes the generation raise KeyError to the
transport layer instead of yielding a structured error result. -/
theorem claim_C8_counterexample :
    runFunctionB [] = Except.error PyErr.keyError := rfl
